import Mathlib

/-!
Verification development for the Sentry profile post-processing pipeline
(`src/sentry/profiles/task.py`). The Python module is shallowly embedded:

* dictionaries with a fixed shape become structures with `Option` fields
  (a `none` models a missing key; where the code distinguishes a missing
  key from a falsy value and the distinction is irrelevant to the
  properties below, the two are conflated and a comment says so);
* in-place mutation becomes explicit state passing of the profile record;
* code that can raise becomes `Option`/`Except` (a `none`/`.error` models
  an uncaught Python exception at that point);
* external collaborators (symbolicator service, proguard mapper, device
  classifier, vroom, quotas, `is_valid_javascript_frame`,
  `native_images_from_data`, signature codecs) are fields of an `Env`
  record: the pipeline is modelled as a function of the profile and of the
  collaborators' behaviour.

Machine integers are modelled as `Int`/`Nat`; the float multiplication
`int(duration_ns * 1e-6)` is modelled as exact integer division by 10^6
(truncation toward zero), which is the intended integral semantics.
-/

namespace ProfilesTask

/-! ## Python list primitives -/

/-- Python list subscript `l[i]`: negative indices count from the end,
out-of-range access raises (modelled as `none`). -/
def pyGet {α : Type} (l : List α) (i : Int) : Option α :=
  if i < 0 then
    if -i ≤ (l.length : Int) then l.get? ((l.length : Int) + i).toNat else none
  else
    l.get? i.toNat

/-- Python slice `l[k:]`. -/
def pyDrop {α : Type} (l : List α) (k : Nat) : List α := l.drop k

/-- Python slice `l[:-k]` (empty result when `k ≥ len(l)`). -/
def pyDropLast {α : Type} (l : List α) (k : Nat) : List α := l.take (l.length - k)

/-- Python `set.add` on a set represented as a duplicate-free list in
insertion order (all insertions in the source happen in ascending order,
matching CPython's small-int set iteration order). -/
def pySetAdd (s : List Nat) (i : Nat) : List Nat :=
  if i ∈ s then s else s ++ [i]

/-! ## Data model: frames, images, samples, methods, profiles -/

/-- A stack frame as used by the pipeline; only the keys the pipeline
itself reads or writes are modelled. `none` is a missing key. -/
structure Frame where
  function : Option String := none
  platform : Option String := none
  instruction_addr : Option String := none
  original_index : Option Nat := none
  adjust_instruction_addr : Option Bool := none
  deriving DecidableEq, Repr

/-- A debug image descriptor. Only the `type` key is inspected by the
pipeline (for the sourcemap filter); all other content is opaque and is
mutated only by the external `_merge_image` collaborator, which is not
modelled (no claim looks at image content). -/
structure Image where
  type : String := ""
  deriving DecidableEq, Repr

/-- A sample. Legacy-format samples carry `frames`; v1 samples carry
`elapsed_since_start_ns`; v2 samples carry `timestamp` (modelled as an
integer number of seconds; only its ordering and differences matter). -/
structure Sample where
  frames : List Frame := []
  elapsed_since_start_ns : Option Int := none
  timestamp : Option Int := none
  deriving DecidableEq, Repr

/-- An android method record. The `data` dict is modelled by its single
`deobfuscation_status` entry. -/
structure InlineFrame where
  class_name : String
  data_status : Option String := none
  name : String
  source_file : String := ""
  source_line : Int := 0
  signature : Option String := none
  deriving DecidableEq, Repr

structure AndroidMethod where
  class_name : String
  name : String
  signature : Option String := none
  source_line : Option Int := none
  source_file : Option String := none
  data_status : Option String := none
  inline_frames : Option (List InlineFrame) := none
  deriving DecidableEq, Repr

/-- The `profile["profile"]` sub-object of the sample formats: a flat
frame array, stacks of indices into it, samples, and (android) methods.
The `methods` key is modelled as always present (empty when absent;
no claim depends on the distinction). -/
structure ProfileData where
  frames : List Frame := []
  «stacks» : List (List Nat) := []
  samples : List Sample := []
  methods : List AndroidMethod := []
  deriving DecidableEq, Repr

/-- `profile["transaction"]` for v1 profiles. -/
structure Transaction where
  relative_start_ns : Option Int := none
  relative_end_ns : Option Int := none
  deriving DecidableEq, Repr

/-- v1 `profile["device"]` / `profile["os"]` sub-objects. -/
structure DeviceV1 where
  model : String := ""
  is_emulator : Bool := false
  classification : Option String := none
  deriving DecidableEq, Repr

structure OsV1 where
  name : String := ""
  deriving DecidableEq, Repr

/-- The typed error recorded on the profile by `run_symbolicate`. -/
inductive EventErrorType where
  | nativeInternalFailure
  | nativeSymbolicatorFailed
  deriving DecidableEq, Repr

structure SymbErrorInfo where
  type : EventErrorType
  status : Option String := none
  message : Option String := none
  deriving DecidableEq, Repr

/-- The central mutable profile record. `debugImages` models
`profile["debug_meta"]["images"]`; a `none` conflates a missing
`debug_meta` key with a falsy `debug_meta` value (the code treats both as
"skip symbolication"). -/
structure Profile where
  platform : String
  version : Option String := none
  event_id : Option String := none
  transaction_id : Option String := none
  chunk_id : Option String := none
  debugImages : Option (List Image) := none
  profileData : Option ProfileData := none
  sampled_profile : Option (List Sample) := none
  transaction : Option Transaction := none
  duration_ns : Option Int := none
  build_id : Option String := none
  js_profile : Option ProfileData := none
  release : Option String := none
  dist : Option String := none
  device_cpu_frequencies : Option (List Nat) := none
  device_physical_memory_bytes : Option Nat := none
  device_model : Option String := none
  device_os_name : Option String := none
  device_is_emulator : Option Bool := none
  device : Option DeviceV1 := none
  os : Option OsV1 := none
  device_classification : Option String := none
  retention_days : Option Nat := none
  processed_by_symbolicator : Bool := false
  deobfuscated : Bool := false
  normalized : Bool := false
  symbolicator_error : Option SymbErrorInfo := none
  deriving DecidableEq, Repr

/-! ## Platform sets -/

def JS_PLATFORMS : List String := ["javascript", "node"]

def SHOULD_SYMBOLICATE_JS : List String := JS_PLATFORMS

def SHOULD_SYMBOLICATE : List String := ["cocoa", "rust"] ++ JS_PLATFORMS

def SHOULD_DEOBFUSCATE : List String := ["android"]

def should_symbolicate (p : Profile) : Bool :=
  SHOULD_SYMBOLICATE.contains p.platform && !p.processed_by_symbolicator

def should_deobfuscate (p : Profile) : Bool :=
  SHOULD_DEOBFUSCATE.contains p.platform && !p.deobfuscated

/-! ## Platform-specific stack truncation (`truncate_stack_needed`) -/

/-- `frames[i].get("function", "")` with Python indexing. -/
def frameFunction (frames : List Frame) (i : Int) : Option String :=
  (pyGet frames i).map (fun f => f.function.getD "")

/-- The rust `truncate_stack_needed` closure: drops the two leading
profiler frames when the first frame is the perf signal handler, then
drops the two trailing frames when the frame at position `len - 2` has an
empty function name. A `none` is a raised IndexError. -/
def truncate_stack_rust (frames : List Frame) (stack : List Nat) : Option (List Nat) := do
  let i0 ← pyGet stack 0
  let f0 ← frameFunction frames (i0 : Int)
  let s1 := if f0 = "perf_signal_handler" then pyDrop stack 2 else stack
  let i1 ← pyGet s1 ((s1.length : Int) - 2)
  let f1 ← frameFunction frames (i1 : Int)
  pure (if f1 = "" then pyDropLast s1 2 else s1)

/-- The cocoa `truncate_stack_needed` closure. -/
def truncate_stack_cocoa (frames : List Frame) (stack : List Nat) : Option (List Nat) := do
  let iL ← pyGet stack (-1)
  let fL ← pyGet frames (iL : Int)
  pure (if fL.instruction_addr.getD "" = "0xffffffffc" then pyDropLast stack 2 else stack)

def truncate_stack_needed (platform : String) (frames : List Frame) (stack : List Nat) :
    Option (List Nat) :=
  if platform = "rust" then truncate_stack_rust frames stack
  else if platform = "cocoa" then truncate_stack_cocoa frames stack
  else some stack

/-! ## Frame index map (`get_frame_index_map`) -/

/-- Append `i` to the bucket of key `k` in an association map, creating
the bucket at the end when absent (Python `dict.setdefault(k, []).append(i)`;
insertion order of keys is kept but never observed). -/
def insertIdx (m : List (Nat × List Nat)) (k i : Nat) : List (Nat × List Nat) :=
  match m with
  | [] => [(k, [i])]
  | (k2, v) :: rest => if k2 = k then (k2, v ++ [i]) :: rest else (k2, v) :: insertIdx rest k i

def lookupA (m : List (Nat × List Nat)) (k : Nat) : Option (List Nat) :=
  match m with
  | [] => none
  | (k2, v) :: rest => if k2 = k then some v else lookupA rest k

def frameIndexMapGo (acc : List (Nat × List Nat)) : List Frame → Nat → List (Nat × List Nat)
  | [], _ => acc
  | f :: rest, i => frameIndexMapGo (insertIdx acc (f.original_index.getD i) i) rest (i + 1)

/-- `get_frame_index_map`: maps each result frame's `original_index`
(defaulting to its own position) to the ordered list of result positions
with that origin. -/
def get_frame_index_map (frames : List Frame) : List (Nat × List Nat) :=
  frameIndexMapGo [] frames 0

/-- Specification-side reading of the map (claim C3's wording): the
ordered list of positions, counted from `i`, of result frames whose
declared origin (own position by default) is `k`. -/
def originPositions : List Frame → Nat → Nat → List Nat
  | [], _, _ => []
  | f :: rest, i, k =>
      (if f.original_index.getD i = k then [i] else []) ++ originPositions rest (i + 1) k

/-! ## Frame array rebuild (`_process_symbolicator_results_for_sample`,
new-frames loop) -/

/-- The source's rebuild loop: walk the original frame indices carrying
the running slot counter `symbolicated_frame_idx`; a missing map key or
an out-of-range frame access raises (`none`). -/
def rebuildGo (raw symb : List Frame) (sent : List Nat) (m : List (Nat × List Nat)) :
    List Nat → Nat → Option (List Frame)
  | [], _ => some []
  | idx :: rest, ctr =>
    if idx ∈ sent then do
      let slots ← lookupA m ctr
      let fs ← slots.mapM (fun fi => symb.get? fi)
      let tail ← rebuildGo raw symb sent m rest (ctr + 1)
      pure (fs ++ tail)
    else do
      let f ← raw.get? idx
      let tail ← rebuildGo raw symb sent m rest ctr
      pure (f :: tail)

def rebuildFrames (raw symb : List Frame) (sent : List Nat) (m : List (Nat × List Nat)) :
    Option (List Frame) :=
  rebuildGo raw symb sent m (List.range raw.length) 0

/-- Specification-side rebuild (claim C3's wording): walk the original
frame array index-by-index; an index not in the sent set is copied
unchanged; an index in the sent set consumes the slot equal to its rank
among sent indices (the number of sent indices below it) and splices in
all result frames mapped to that slot. -/
def specSplice (raw symb : List Frame) (sent : List Nat) : List Nat → Option (List Frame)
  | [] => some []
  | idx :: rest =>
    if idx ∈ sent then do
      let slots ← lookupA (get_frame_index_map symb) (sent.countP (fun j => decide (j < idx)))
      let fs ← slots.mapM (fun fi => symb.get? fi)
      let tail ← specSplice raw symb sent rest
      pure (fs ++ tail)
    else do
      let f ← raw.get? idx
      let tail ← specSplice raw symb sent rest
      pure (f :: tail)

def specRebuildFrames (raw symb : List Frame) (sent : List Nat) : Option (List Frame) :=
  specSplice raw symb sent (List.range raw.length)

/-! ## External collaborators -/

/-- The symbolicator's response to one request, as discriminated by
`run_symbolicate`: falsy, `status == "completed"` (with optional
`modules`/`stacktraces` keys), `status == "failed"` (with optional
`message`), any other status, or a `SymbolicationTimeout` raised by the
wall-clock watchdog during the call. -/
inductive SymbResponse where
  | empty
  | completed (modules : Option (List Image)) (stacktraces : Option (List (List Frame)))
  | failed (message : Option String)
  | other (status : String)
  | timeout
  deriving Repr

/-- A frame produced by the proguard mapper's `remap_frame`. -/
structure MappedFrame where
  class_name : String
  method : String
  file : String := ""
  line : Int := 0
  deriving DecidableEq, Repr

/-- The proguard mapper object returned by `open_proguard_mapper`
(external). `remap_frame` takes class, method and line;
`remap_frame_params` is the parameters-based overload taking the joined
parameter string. -/
structure Mapper where
  has_line_info : Bool
  remap_frame : String → String → Int → List MappedFrame
  remap_frame_params : String → String → Int → String → List MappedFrame
  remap_class : String → Option String

/-- Keyword arguments assembled for `classify_device`. -/
structure ClassifyInput where
  cpu_frequencies : Option (List Nat) := none
  physical_memory_bytes : Option Nat := none
  model : Option String := none
  os_name : Option String := none
  is_emulator : Option Bool := none
  deriving DecidableEq, Repr

/-- The persistence sink's behaviour on `POST /profile`: an HTTP status
code, or a transport-level exception. -/
inductive VroomResp where
  | status (code : Nat)
  | exc
  deriving DecidableEq, Repr

/-- All external collaborator behaviour the pipeline depends on, fixed
for one run. -/
structure Env where
  symbResponse : String → SymbResponse := fun _ => .empty
  isValidJS : Frame → Bool := fun _ => false
  nativeImages : List Image → List Image := fun l => l
  classifyDevice : ClassifyInput → String := fun _ => ""
  retention : Option Nat := none
  vroomResp : VroomResp := .status 204
  hasProfiles : Bool := true
  useSymbolicatorDeob : Bool := false
  fetchDif : String → Except Unit (Option Mapper) := fun _ => .ok none
  decodeSig : String → List String × String := fun _ => ([], "")
  decodeSigWithMapper : String → List String × String := fun _ => ([], "")
  formatSig : List String × String → String := fun _ => ""
  remoteDeob : List AndroidMethod → Option (List AndroidMethod) := fun _ => none

def exceptOfOption {α : Type} (o : Option α) : Except Unit α :=
  match o with
  | some a => .ok a
  | none => .error ()

/-! ## Outcomes (`_track_outcome`, `get_event_id`, `get_data_category`) -/

inductive OutcomeKind where
  | accepted
  | invalid
  deriving DecidableEq, Repr

inductive Category where
  | profileChunk
  | profileIndexed
  | profileDuration
  deriving DecidableEq, Repr

def get_event_id (p : Profile) : Option String :=
  if p.transaction_id.isSome then p.transaction_id
  else if p.event_id.isSome then p.event_id
  else if p.chunk_id.isSome then p.chunk_id
  else none

def get_data_category (p : Profile) : Category :=
  if p.version = some "2" then .profileChunk else .profileIndexed

/-- One emitted outcome record, together with whether the
`first_profile_received` signal was fired by this emission. -/
structure OutcomeEvent where
  outcome : OutcomeKind
  reason : Option String := none
  category : Category
  quantity : Int := 1
  event_id : Option String := none
  firedFirstProfileSignal : Bool := false
  deriving DecidableEq, Repr

/-- `_track_outcome`: fires the first-profile-received signal whenever
the project lacks the has-profiles flag, then emits one outcome with
category derived from the schema version. -/
def track_outcome_ev (hasProfiles : Bool) (p : Profile) (o : OutcomeKind)
    (reason : Option String) : OutcomeEvent :=
  { outcome := o, reason := reason, category := get_data_category p, quantity := 1,
    event_id := get_event_id p, firedFirstProfileSignal := !hasProfiles }

/-! ## Frame preparation (`_prepare_frames_from_profile`) -/

/-- Indices of frames accepted by `is_valid_javascript_frame` (external
predicate, supplied by the environment); ascending, matching CPython
small-int set iteration order. -/
def jsSentIndices (env : Env) (frames : List Frame) : List Nat :=
  (frames.enum.filter (fun q => env.isValidJS q.2)).map (fun q => q.1)

/-- Indices of frames belonging to sub-platform `platform` that carry an
instruction address (react-native style hybrid profiles). -/
def subPlatformSent (frames : List Frame) (platform : String) : List Nat :=
  (frames.enum.filter
    (fun q => q.2.platform.getD "" = platform && q.2.instruction_addr.isSome)).map (fun q => q.1)

/-- Legacy format: the first frame of each sample gets
`adjust_instruction_addr = False`. -/
def adjustFirstFrame : List Frame → List Frame
  | [] => []
  | f :: rest => {f with adjust_instruction_addr := some false} :: rest

/-- The per-stack loop of `_prepare_frames_from_profile` for non-JS
sub-platforms. State: the profile's frame array `pf`, the local batch
list `fl` (the same list object when `aliased`), and the sent-index set.
For each non-empty stack the leaf frame is fetched from the profile's
frame array (an out-of-range leaf index raises), deep-copied with
`adjust_instruction_addr = False`, and appended according to the root
platform: for a non-JS root it is appended to the batch (which aliases
the profile's frames when root and sub-platform coincide) and the leaf
index is repointed; for a JS root it is appended to both lists only when
the leaf was sent, and the new index joins the sent set. -/
def prepStacksNonJS (rootNotJS aliased : Bool) :
    List Frame → List Frame → List Nat → List (List Nat) →
    Option (List Frame × List Frame × List Nat × List (List Nat))
  | pf, fl, sent, [] => some (pf, fl, sent, [])
  | pf, fl, sent, stack :: rest =>
    match stack with
    | [] => do
      let (pf2, fl2, sent2, sts) ← prepStacksNonJS rootNotJS aliased pf fl sent rest
      pure (pf2, fl2, sent2, [] :: sts)
    | i0 :: tl => do
      let f ← pyGet pf (i0 : Int)
      let f2 := {f with adjust_instruction_addr := some false}
      if rootNotJS then
        let fl2 := fl ++ [f2]
        let pf2 := if aliased then fl2 else pf
        let (pf3, fl3, sent3, sts) ← prepStacksNonJS rootNotJS aliased pf2 fl2 sent rest
        pure (pf3, fl3, sent3, ((fl2.length - 1) :: tl) :: sts)
      else
        if i0 ∈ sent then
          let pf2 := pf ++ [f2]
          let fl2 := fl ++ [f2]
          let ni := pf2.length - 1
          let (pf3, fl3, sent3, sts) ←
            prepStacksNonJS rootNotJS aliased pf2 fl2 (pySetAdd sent ni) rest
          pure (pf3, fl3, sent3, (ni :: tl) :: sts)
        else do
          let (pf3, fl3, sent3, sts) ← prepStacksNonJS rootNotJS aliased pf fl sent rest
          pure (pf3, fl3, sent3, (i0 :: tl) :: sts)

/-- `_prepare_frames_from_profile`: returns the (possibly mutated)
profile, the modules read from the current `debug_meta.images`, the
stacktrace batch, and the sent-index set. -/
def prepare_frames_from_profile (env : Env) (p : Profile) (platform : String) :
    Except Unit (Profile × List Image × List (List Frame) × List Nat) := do
  let modules ← exceptOfOption p.debugImages
  match p.version with
  | some _ => do
    let pd ← exceptOfOption p.profileData
    if platform ∈ JS_PLATFORMS then
      let sent := jsSentIndices env pd.frames
      let fl := sent.filterMap (fun i => pd.frames.get? i)
      pure (p, modules, [fl], sent)
    else
      let rootNotJS := p.platform ∉ JS_PLATFORMS
      if p.platform ≠ platform then do
        let sent0 := subPlatformSent pd.frames platform
        let fl0 := sent0.filterMap (fun i => pd.frames.get? i)
        let (pf, fl, sent, sts) ←
          exceptOfOption (prepStacksNonJS rootNotJS false pd.frames fl0 sent0 pd.stacks)
        pure ({p with profileData := some {pd with frames := pf, «stacks» := sts}},
          modules, [fl], sent)
      else do
        let (_, fl, sent, sts) ←
          exceptOfOption (prepStacksNonJS rootNotJS true pd.frames pd.frames [] pd.stacks)
        pure ({p with profileData := some {pd with frames := fl, «stacks» := sts}},
          modules, [fl], sent)
  | none => do
    let sp ← exceptOfOption p.sampled_profile
    let sp2 := sp.map (fun s => {s with frames := adjustFirstFrame s.frames})
    pure ({p with sampled_profile := some sp2}, modules, sp2.map (fun s => s.frames), [])

/-! ## `run_symbolicate` response handling -/

/-- `run_symbolicate`, given the collaborator's response: returns the
modules, stacktraces, the success flag, and the `symbolicator_error` to
record on the profile (if any). On a timeout the unsymbolicated data is
returned with no recorded error. -/
def run_symbolicate (resp : SymbResponse) (modules : List Image)
    (stacktraces : List (List Frame)) :
    List Image × List (List Frame) × Bool × Option SymbErrorInfo :=
  match resp with
  | .empty => (modules, stacktraces, false, some {type := .nativeInternalFailure})
  | .completed m s => (m.getD modules, s.getD stacktraces, true, none)
  | .failed msg =>
      (modules, stacktraces, false,
        some {type := .nativeSymbolicatorFailed, status := some "failed", message := msg})
  | .other st =>
      (modules, stacktraces, false,
        some {type := .nativeInternalFailure, status := some st})
  | .timeout => (modules, stacktraces, false, none)

/-! ## Merging symbolicator results
(`_process_symbolicator_results` and friends) -/

/-- The stack rewriting closure `get_stack`: for symbolicate-eligible
platforms each index is replaced by its expansion in the frame index map
(itself when absent). -/
def get_stack_expand (m : List (Nat × List Nat)) (platform : String) (stack : List Nat) :
    List Nat :=
  if platform ∈ SHOULD_SYMBOLICATE then
    stack.flatMap (fun i => match lookupA m i with | some l => l | none => [i])
  else stack

/-- `_process_symbolicator_results_for_sample`. A `none` is a raised
exception (IndexError/KeyError/AssertionError). -/
def process_symbolicator_results_for_sample (pd : ProfileData)
    (stacktraces : List (List Frame)) (sent : List Nat) (platform : String) :
    Option ProfileData := do
  let symbFrames ← stacktraces.get? 0
  let m := get_frame_index_map symbFrames
  let pd1 ←
    if sent.length > 0 then do
      let nf ← rebuildFrames pd.frames symbFrames sent m
      let cnt := pd.frames.length + symbFrames.length - m.length
      if platform ∈ SHOULD_SYMBOLICATE_JS ∧ nf.length ≠ cnt then none
      else some {pd with frames := nf}
    else if symbFrames ≠ [] then some {pd with frames := symbFrames}
    else some pd
  let newStacks ← pd.stacks.mapM (fun stack => do
    let ns := get_stack_expand m platform stack
    if 2 ≤ ns.length then truncate_stack_needed platform pd1.frames ns else some ns)
  pure {pd1 with «stacks» := newStacks}

/-- Python `zip` semantics over samples and result stacktraces: pairs up
to the shorter list are rewritten, trailing samples are kept. -/
def zipWithKeep (f : Sample → List Frame → Sample) :
    List Sample → List (List Frame) → List Sample
  | [], _ => []
  | ss, [] => ss
  | s :: ss, t :: ts => f s t :: zipWithKeep f ss ts

/-- `_process_symbolicator_results_for_rust` (the popping of the
`pre_context`/`context_line`/`post_context` keys is not modelled: those
keys are not part of the embedded `Frame`). -/
def process_symbolicator_results_for_rust (sp : List Sample) (sts : List (List Frame)) :
    List Sample :=
  zipWithKeep (fun s fr =>
    {s with frames :=
      if 1 < fr.length ∧ (frameFunction fr 0).getD "" = "perf_signal_handler"
      then pyDrop fr 2 else fr}) sp sts

def process_symbolicator_results_for_cocoa (sp : List Sample) (sts : List (List Frame)) :
    List Sample :=
  zipWithKeep (fun s fr =>
    {s with frames :=
      if 1 < fr.length ∧ ((pyGet fr (-1)).map (fun f => f.instruction_addr.getD "")).getD ""
          = "0xffffffffc"
      then pyDropLast fr 2 else fr}) sp sts

/-- `_process_symbolicator_results`: update images, then merge
stacktraces per schema; the legacy path renames `sampled_profile` to
`profile`. -/
def process_symbolicator_results (p : Profile) (modules : List Image)
    (stacktraces : List (List Frame)) (sent : List Nat) (platform : String) :
    Except Unit Profile := do
  let p1 := {p with debugImages := some modules}
  match p1.version with
  | some _ => do
    let pd ← exceptOfOption p1.profileData
    let pd2 ← exceptOfOption
      (process_symbolicator_results_for_sample pd stacktraces sent platform)
    pure {p1 with profileData := some pd2}
  | none => do
    let sp ← exceptOfOption p1.sampled_profile
    let sp2 :=
      if platform = "rust" then process_symbolicator_results_for_rust sp stacktraces
      else if platform = "cocoa" then process_symbolicator_results_for_cocoa sp stacktraces
      else sp
    pure {p1 with profileData := some {samples := sp2}, sampled_profile := none}

/-! ## The symbolication stage (`_symbolicate_profile`) -/

/-- `get_profile_platforms`: the root platform, plus `"cocoa"` for
sample-format JS profiles containing a cocoa frame. Reading the frames of
a version-carrying profile with no `profile` key raises. -/
def get_profile_platforms (p : Profile) : Except Unit (List String) :=
  if p.version.isSome ∧ p.platform ∈ SHOULD_SYMBOLICATE_JS then
    match p.profileData with
    | none => .error ()
    | some pd =>
        .ok (if pd.frames.any (fun f => f.platform.getD "" = "cocoa")
          then [p.platform, "cocoa"] else [p.platform])
  else .ok [p.platform]

/-- `get_debug_images_for_platform`: sourcemap images for JS platforms,
`native_images_from_data` (external, supplied by the environment)
otherwise. -/
def get_debug_images_for_platform (env : Env) (p : Profile) (platform : String) : List Image :=
  if platform ∈ SHOULD_SYMBOLICATE_JS then
    (p.debugImages.getD []).filter (fun i => i.type = "sourcemap")
  else env.nativeImages (p.debugImages.getD [])

/-- The per-platform loop body of `_symbolicate_profile`: select images,
prepare frames, call the collaborator, record any typed error, check the
modules-length assertion (`_merge_image` itself only mutates image
content, which is not modelled), and merge results on success. -/
def symbLoop (env : Env) (images : String → List Image) :
    List String → Profile → Except Unit Profile
  | [], p => .ok p
  | pl :: rest, p => do
    let (p2, rawModules, rawStacktraces, sent) ←
      prepare_frames_from_profile env {p with debugImages := some (images pl)} pl
    let (modules, stacktraces, success, err) :=
      run_symbolicate (env.symbResponse pl) rawModules rawStacktraces
    let p3 := match err with
      | some e => {p2 with symbolicator_error := some e}
      | none => p2
    if (images pl).length ≠ modules.length then .error ()
    else do
      let p4 ← if success then process_symbolicator_results p3 modules stacktraces sent pl
        else .ok p3
      symbLoop env images rest p4

/-- The `try` body of `_symbolicate_profile` past the debug-meta guard:
on normal completion the original images are restored and the
idempotence flag is set. -/
def symbolicateBody (env : Env) (p : Profile) : Except Unit Profile := do
  let platforms ← get_profile_platforms p
  let originalImages := p.debugImages.getD []
  let p2 ← symbLoop env (fun pl => get_debug_images_for_platform env p pl) platforms p
  pure {p2 with debugImages := some originalImages, processed_by_symbolicator := true}

/-- `_symbolicate_profile`: skip when not eligible or already processed;
skip (without setting the flag) when `debug_meta` is missing or falsy;
otherwise any exception in the body is caught and converted into an
INVALID outcome with reason `profiling_failed_symbolication` and a false
return. -/
def symbolicate_profile (env : Env) (p : Profile) : Bool × List OutcomeEvent × Profile :=
  if !should_symbolicate p then (true, [], p)
  else if p.debugImages.isNone then (true, [], p)
  else
    match symbolicateBody env p with
    | .ok p2 => (true, [], p2)
    | .error _ =>
        (false, [track_outcome_ev env.hasProfiles p .invalid
          (some "profiling_failed_symbolication")], p)

/-! ## The deobfuscation stage (`_deobfuscate`, `_deobfuscate_locally`,
`_deobfuscate_profile`) -/

/-- Python truthiness of an optional string. -/
def sigTruthy (o : Option String) : Bool :=
  match o with
  | some s => s ≠ ""
  | none => false

/-- The per-method body of the `_deobfuscate_locally` remap loop. The
`data` dict is modelled by its `deobfuscation_status` entry; a
`source_file` read of a method that never had one is modelled as the
empty string. -/
def remapDecode (env : Env) (m : AndroidMethod) :
    AndroidMethod × Option (List String × String) :=
  match m.signature with
  | some s =>
    if s ≠ "" then
      let t := env.decodeSigWithMapper s
      ({m with signature := some (env.formatSig t)}, some t)
    else (m, none)
  | none => (m, none)

/-- The mapper lookup of the remap loop: parameters-based when line
information is absent but a decoded signature is available, line-based
otherwise. -/
def remapLookup (mapper : Mapper) (m1 : AndroidMethod)
    (typesOpt : Option (List String × String)) : List MappedFrame :=
  if m1.source_line = none ∧ m1.signature ≠ none ∧ typesOpt.isSome then
    mapper.remap_frame_params m1.class_name m1.name 0
      (String.intercalate "," (typesOpt.getD ([], "")).1)
  else mapper.remap_frame m1.class_name m1.name (m1.source_line.getD 0)

def remapMethod (env : Env) (mapper : Mapper) (m : AndroidMethod) : AndroidMethod :=
  let m1 := (remapDecode env m).1
  let typesOpt := (remapDecode env m).2
  let mapped := remapLookup mapper m1 typesOpt
  match mapped.getLast? with
  | some nf =>
    let m2 := {m1 with
      class_name := nf.class_name
      name := nf.method
      data_status := some (if sigTruthy m1.signature then "deobfuscated" else "partial")}
    let m3 := if nf.file ≠ "" then {m2 with source_file := some nf.file} else m2
    let m4 := if nf.line ≠ 0 then {m3 with source_line := some nf.line} else m3
    let bottomClass := nf.class_name
    if m4.source_line = none ∧ m4.signature ≠ none then m4
    else
      let infr := mapped.reverse.map (fun g =>
        ({ class_name := g.class_name, data_status := some "deobfuscated",
           name := g.method,
           source_file := if bottomClass = g.class_name then m4.source_file.getD "" else "",
           source_line := g.line } : InlineFrame))
      let infr2 :=
        match infr with
        | [] => infr
        | h :: t =>
            {h with data_status := m4.data_status, signature := some (m4.signature.getD "")} :: t
      {m4 with inline_frames := some infr2}
  | none =>
    match mapper.remap_class m1.class_name with
    | some mc => {m1 with class_name := mc, data_status := some "partial"}
    | none => {m1 with data_status := some "missing"}

/-- The no-`build_id` path of `_deobfuscate`: only signatures are
decoded (one-argument `deobfuscate_signature`), when present and
non-empty. -/
def sigDecodeOnly (env : Env) (m : AndroidMethod) : AndroidMethod :=
  match m.signature with
  | some s =>
      if s ≠ "" then {m with signature := some (env.formatSig (env.decodeSig s))} else m
  | none => m

def deobfuscateNoBuildId (env : Env) (p : Profile) : Except Unit Profile :=
  match p.profileData with
  | none => .error ()
  | some pd =>
      .ok {p with profileData := some {pd with methods := pd.methods.map (sigDecodeOnly env)}}

/-- `_deobfuscate_locally`: fetch the mapping artifact (fetch plus
`open_proguard_mapper` are external and supplied by the environment);
absent artifact or an artifact without line info is a silent no-op;
otherwise every method is remapped. -/
def deobfuscate_locally (env : Env) (p : Profile) (debug_file_id : String) :
    Except Unit Profile :=
  match env.fetchDif debug_file_id with
  | .error _ => .error ()
  | .ok none => .ok p
  | .ok (some mapper) =>
    if !mapper.has_line_info then .ok p
    else
      match p.profileData with
      | none => .error ()
      | some pd =>
          let pd2 := {pd with methods := pd.methods.map (remapMethod env mapper)}
          .ok {p with profileData := some pd2}

/-- `_deobfuscate`: no/empty `build_id` means signature decoding only;
otherwise either the remote strategy (whose network call, merge and any
exception are wrapped in a silently-captured try, so it never fails the
stage) or the local strategy, by project option. -/
def deobfuscateBody (env : Env) (p : Profile) : Except Unit Profile :=
  match p.build_id with
  | none => deobfuscateNoBuildId env p
  | some bid =>
    if bid = "" then deobfuscateNoBuildId env p
    else if env.useSymbolicatorDeob then
      match p.profileData with
      | some pd =>
        match env.remoteDeob pd.methods with
        | some ms => .ok {p with profileData := some {pd with methods := ms}}
        | none => .ok p
      | none => .ok p
    else deobfuscate_locally env p bid

/-- `_deobfuscate_profile`: skip when not an android profile or already
deobfuscated; skip when the `profile` key is missing or falsy; otherwise
exceptions become an INVALID outcome with reason
`profiling_failed_deobfuscation`. -/
def deobfuscate_profile (env : Env) (p : Profile) : Bool × List OutcomeEvent × Profile :=
  if !should_deobfuscate p then (true, [], p)
  else if p.profileData.isNone then (true, [], p)
  else
    match deobfuscateBody env p with
    | .ok p2 => (true, [], {p2 with deobfuscated := true})
    | .error _ =>
        (false, [track_outcome_ev env.hasProfiles p .invalid
          (some "profiling_failed_deobfuscation")], p)

/-! ## The normalization stage (`_normalize`, `_normalize_profile`) -/

/-- The `classification_options` assembly of `_normalize`: android
profiles add CPU frequencies and physical memory (missing keys raise). -/
def normalizeOpts (p1 : Profile) : Except Unit ClassifyInput :=
  if p1.platform = "android" then do
    let cf ← exceptOfOption p1.device_cpu_frequencies
    let pm ← exceptOfOption p1.device_physical_memory_bytes
    pure {({} : ClassifyInput) with cpu_frequencies := some cf
                                    physical_memory_bytes := some pm}
  else pure {}

/-- The classification half of `_normalize` (runs for cocoa/android
profiles on schema versions other than v2); missing metadata fields
raise, and a version other than `"1"`/absent reaches `classify_device`
with required arguments missing, which raises. -/
def normalizeClassify (env : Env) (p1 : Profile) : Except Unit Profile := do
  let opts1 ← normalizeOpts p1
  if p1.version = some "1" then do
    let d ← exceptOfOption p1.device
    let o ← exceptOfOption p1.os
    let args := {opts1 with
      model := some d.model
      os_name := some o.name
      is_emulator := some d.is_emulator}
    let c := env.classifyDevice args
    pure {p1 with device := some {d with classification := some c}}
  else if p1.version = none then do
    let dm ← exceptOfOption p1.device_model
    let dn ← exceptOfOption p1.device_os_name
    let de ← exceptOfOption p1.device_is_emulator
    let args := {opts1 with model := some dm, os_name := some dn, is_emulator := some de}
    let c := env.classifyDevice args
    pure {p1 with device_classification := some c}
  else .error ()

/-- The platform/version gate of `_normalize` after the retention
assignment. -/
def normalizeRest (env : Env) (p1 : Profile) : Except Unit Profile :=
  if !(p1.platform = "cocoa" ∨ p1.platform = "android") ∨ p1.version = some "2" then pure p1
  else normalizeClassify env p1

/-- `_normalize`: retention days from quota config (`or 90` catches
both a missing and a zero quota), then device classification for
cocoa/android profiles on schema versions other than v2. -/
def normalizeBody (env : Env) (p : Profile) : Except Unit Profile :=
  normalizeRest env {p with retention_days := some (match env.retention with
    | none => 90
    | some 0 => 90
    | some k => k)}

def normalize_profile (env : Env) (p : Profile) : Bool × List OutcomeEvent × Profile :=
  if p.normalized then (true, [], p)
  else
    match normalizeBody env p with
    | .ok p2 => (true, [], {p2 with normalized := true})
    | .error _ =>
        (false, [track_outcome_ev env.hasProfiles p .invalid
          (some "profiling_failed_normalization")], p)

/-! ## Submission to vroom (`_insert_vroom_profile`,
`_push_profile_to_vroom`) and the task retry configuration -/

/-- `_insert_vroom_profile`: 204 succeeds; 429 raises `VroomTimeout`
(modelled as the `Except` error, re-raised past the generic handler);
412 (duplicate) and any other status fail non-retryably; a transport
exception is captured and fails non-retryably. -/
def insert_vroom_profile (resp : VroomResp) : Except Unit Bool :=
  match resp with
  | .status code =>
    if code = 204 then .ok true
    else if code = 429 then .error ()
    else if code = 412 then .ok false
    else .ok false
  | .exc => .ok false

def push_profile_to_vroom (env : Env) (p : Profile) : Except Unit (Bool × List OutcomeEvent) :=
  match insert_vroom_profile env.vroomResp with
  | .error e => .error e
  | .ok true => .ok (true, [])
  | .ok false =>
      .ok (false, [track_outcome_ev env.hasProfiles p .invalid
        (some "profiling_failed_vroom_insertion")])

/-- The `@instrumented_task` decorator arguments of
`process_profile_task` that govern job-level retry. -/
structure TaskConfig where
  autoretry_for : List String
  retry_backoff : Bool
  retry_backoff_max : Nat
  retry_jitter : Bool
  default_retry_delay : Nat
  max_retries : Nat
  acks_late : Bool
  deriving DecidableEq, Repr

def process_profile_task_config : TaskConfig :=
  { autoretry_for := ["VroomTimeout"], retry_backoff := true, retry_backoff_max := 60,
    retry_jitter := true, default_retry_delay := 5, max_retries := 5, acks_late := true }

/-! ## Duration accounting (`_calculate_profile_duration_ms`,
`_track_duration_outcome`) -/

/-- Evaluate `f` on every element, propagating the first `none` (the
sort key callback raising on the first sample lacking the field). -/
def allSome {α β : Type} (f : α → Option β) : List α → Option (List β)
  | [] => some []
  | x :: xs => do
    let b ← f x
    let bs ← allSome f xs
    pure (b :: bs)

/-- Stable insertion sort by an integer key (Python `sorted`). -/
def insertByKey {α : Type} (key : α → Int) (x : α) : List α → List α
  | [] => [x]
  | y :: ys => if key y < key x then y :: insertByKey key x ys else x :: y :: ys

def sortByKey {α : Type} (key : α → Int) : List α → List α
  | [] => []
  | x :: xs => insertByKey key x (sortByKey key xs)

/-- `_calculate_duration_for_sample_format_v1`. `int(x * 1e-6)` is
modelled as truncating division by 10^6. A `none` is a raised exception
(missing `transaction`/`profile` key, or a sample without
`elapsed_since_start_ns` hit by the sort key). -/
def calculate_duration_for_sample_format_v1 (p : Profile) : Option Int := do
  let t ← p.transaction
  let startNs := t.relative_start_ns.getD 0
  let endNs := t.relative_end_ns.getD 0
  let d := endNs - startNs
  if 0 < d then
    pure (min (d.tdiv 1000000) 30000)
  else do
    let pd ← p.profileData
    let _ ← allSome (fun s => s.elapsed_since_start_ns) pd.samples
    let sorted := sortByKey (fun s => s.elapsed_since_start_ns.getD 0) pd.samples
    if sorted.length < 2 then pure 0
    else do
      let first ← sorted.head?
      let last ← sorted.getLast?
      let fNs ← first.elapsed_since_start_ns
      let lNs ← last.elapsed_since_start_ns
      pure (min ((lNs - fNs).tdiv 1000000) 30000)

/-- `_calculate_duration_for_sample_format_v2` (timestamps modelled as
integral seconds, so `int((last - first) * 1e3)` is exact). -/
def calculate_duration_for_sample_format_v2 (p : Profile) : Option Int := do
  let pd ← p.profileData
  let _ ← allSome (fun s => s.timestamp) pd.samples
  let sorted := sortByKey (fun s => s.timestamp.getD 0) pd.samples
  if sorted.length < 2 then pure 0
  else do
    let first ← sorted.head?
    let last ← sorted.getLast?
    let f ← first.timestamp
    let l ← last.timestamp
    pure ((l - f) * 1000)

def calculate_duration_for_android_format (p : Profile) : Option Int :=
  p.duration_ns.map (fun d => d.tdiv 1000000)

def calculate_profile_duration_ms (p : Profile) : Option Int :=
  let version := p.version.getD ""
  if version ≠ "" then
    if version = "1" then calculate_duration_for_sample_format_v1 p
    else if version = "2" then calculate_duration_for_sample_format_v2 p
    else some 0
  else
    if p.platform = "android" then calculate_duration_for_android_format p
    else some 0

/-- `_track_duration_outcome`: non-positive durations emit no outcome;
the caller swallows exceptions, so a raised computation emits nothing. -/
def track_duration_outcome (p : Profile) : List OutcomeEvent :=
  match calculate_profile_duration_ms p with
  | none => []
  | some d =>
    if d ≤ 0 then []
    else [{ outcome := .accepted, reason := none, category := .profileDuration,
            quantity := d, event_id := none, firedFirstProfileSignal := false }]

/-! ## The pipeline orchestrator (`process_profile_task`, from the point
where the decoded profile reaches the stage machine) -/

inductive PipeResult where
  | aborted
  | completed
  | retryVroomTimeout
  | crashed
  deriving DecidableEq, Repr

/-- `prepare_android_js_profile`: builds the synthetic JS sub-profile.
A missing `event_id` raises (the `release`/`dist`/`debug_meta` reads
are modelled by copying the `Option` values; a truly absent key is
conflated with a present-but-null value). -/
def prepare_android_js_wrap (p : Profile) (jsData : ProfileData) : Except Unit Profile :=
  match p.event_id with
  | none => .error ()
  | some eid =>
      .ok { platform := "javascript"
            version := some "1"
            debugImages := p.debugImages
            profileData := some jsData
            event_id := some eid
            release := p.release
            dist := p.dist }

/-- The tail of the orchestrator: normalization, submission, then
duration and terminal outcome accounting (no terminal ACCEPTED outcome
for v2 profiles). The metrics-DSN block (option-gated, outcome-free,
exception-swallowing) is not modelled. -/
def pipelineTail (env : Env) (p : Profile) (acc : List OutcomeEvent) :
    List OutcomeEvent × PipeResult :=
  match normalize_profile env p with
  | (false, o4, _) => (acc ++ o4, .aborted)
  | (true, _, p4) =>
    match push_profile_to_vroom env p4 with
    | .error _ => (acc, .retryVroomTimeout)
    | .ok (false, o5) => (acc ++ o5, .aborted)
    | .ok (true, _) =>
      (acc ++ track_duration_outcome p4 ++
        (if p4.version = some "2" then []
         else [track_outcome_ev env.hasProfiles p4 .accepted none]), .completed)

/-- `process_profile_task` downstream of envelope decoding and the
sampling gate: the stage machine with short-circuiting, the hybrid JS
sub-profile pass, submission, and outcome accounting. -/
def process_profile_task (env : Env) (p : Profile) : List OutcomeEvent × PipeResult :=
  match symbolicate_profile env p with
  | (false, o1, _) => (o1, .aborted)
  | (true, o1, p1) =>
    match deobfuscate_profile env p1 with
    | (false, o2, _) => (o1 ++ o2, .aborted)
    | (true, o2, p2) =>
      match p2.js_profile with
      | some jsData =>
        match prepare_android_js_wrap p2 jsData with
        | .error _ => (o1 ++ o2, .crashed)
        | .ok jsProf =>
          match symbolicate_profile env jsProf with
          | (false, o3, _) => (o1 ++ o2 ++ o3, .aborted)
          | (true, o3, jsDone) =>
            pipelineTail env {p2 with js_profile := jsDone.profileData} (o1 ++ o2 ++ o3)
      | none => pipelineTail env p2 (o1 ++ o2)

/-- An outcome is terminal when it is not a duration-quantity outcome. -/
def isTerminal (ev : OutcomeEvent) : Bool :=
  match ev.category with
  | .profileDuration => false
  | _ => true

/-! ## Claim C6: the first-profile-received signal -/

/-- Claim C6 (corrected): the first-profile-received signal fires on an
INVALID run too. Concrete run: a legacy profile whose vroom submission
returns 412, for a project lacking the has-profiles flag, emits exactly
one INVALID outcome and the signal fires — refuting the claim that the
signal fires only when an accepted profile is observed. -/
theorem c6_counterexample :
    ∃ ev, (process_profile_task { vroomResp := .status 412, hasProfiles := false }
        { platform := "python", event_id := some "e", sampled_profile := some [] }).1 = [ev] ∧
      ev.outcome = .invalid ∧ ev.firedFirstProfileSignal = true := by
  refine ⟨{ outcome := .invalid, reason := some "profiling_failed_vroom_insertion",
            category := .profileIndexed, quantity := 1, event_id := some "e",
            firedFirstProfileSignal := true }, ?_, rfl, rfl⟩
  rfl

/-- Claim C6 (amended): the first-profile-received signal fires exactly
when an outcome — ACCEPTED or INVALID alike — is tracked for a project
lacking the has-profiles flag, and never once the project has the flag. -/
theorem c6_amended_signal (hp : Bool) (p : Profile) (o : OutcomeKind) (r : Option String) :
    (track_outcome_ev hp p o r).firedFirstProfileSignal = !hp := rfl

/-! ## Claim C7: the vroom submission protocol -/

/-- Claim C7 (confirmed): a 204 response makes the submission stage
return true; a 412 response makes it return false and emit one INVALID
outcome with reason `profiling_failed_vroom_insertion` without raising
the retryable exception; a 429 response raises the distinguished
`VroomTimeout` past the stage (the task is configured to autoretry on
it, with exponential backoff, jitter, and at most 5 retries); any other
status returns false without raising. -/
theorem c7_vroom_protocol (env : Env) (p : Profile) :
    insert_vroom_profile (.status 204) = .ok true ∧
    (env.vroomResp = .status 412 →
      push_profile_to_vroom env p = .ok (false,
        [track_outcome_ev env.hasProfiles p .invalid (some "profiling_failed_vroom_insertion")])) ∧
    insert_vroom_profile (.status 429) = .error () ∧
    process_profile_task_config.autoretry_for = ["VroomTimeout"] ∧
    process_profile_task_config.retry_backoff = true ∧
    process_profile_task_config.retry_jitter = true ∧
    process_profile_task_config.max_retries = 5 ∧
    (∀ c, c ≠ 204 → c ≠ 429 → insert_vroom_profile (.status c) = .ok false) := by
  refine ⟨rfl, ?_, rfl, rfl, rfl, rfl, rfl, ?_⟩
  · intro h
    unfold push_profile_to_vroom
    rw [h]
    rfl
  · intro c h1 h2
    show (if c = 204 then (Except.ok true : Except Unit Bool)
      else if c = 429 then .error () else if c = 412 then .ok false else .ok false) = .ok false
    rw [if_neg h1, if_neg h2]
    split <;> rfl

/-- Witness for C7 at concrete inputs: a 412 environment emits the
INVALID outcome, and status 500 fails non-retryably. -/
theorem c7_vroom_protocol_witness :
    push_profile_to_vroom { vroomResp := .status 412, hasProfiles := true }
        { platform := "python" } = .ok (false,
      [track_outcome_ev true { platform := "python" } .invalid
        (some "profiling_failed_vroom_insertion")]) ∧
    insert_vroom_profile (.status 500) = .ok false := by
  exact ⟨(c7_vroom_protocol { vroomResp := .status 412, hasProfiles := true }
      { platform := "python" }).2.1 rfl,
    (c7_vroom_protocol {} { platform := "python" }).2.2.2.2.2.2.2 500
      (by decide) (by decide)⟩

/-! ## Claim C8: android deobfuscation without a build id -/

/-- Claim C8 (confirmed): for an android profile whose `build_id` is
absent or empty, the deobfuscation stage performs no mapping lookup:
`class_name`, `name`, `source_line` and `source_file` of every method
are unchanged, each non-empty signature is replaced by its decoded form,
and the stage returns true with no outcome, so the pipeline proceeds. -/
theorem c8_no_build_id (env : Env) (p : Profile) (pd : ProfileData)
    (hplat : p.platform = "android")
    (hflag : p.deobfuscated = false)
    (hpd : p.profileData = some pd)
    (hbid : p.build_id = none ∨ p.build_id = some "") :
    deobfuscate_profile env p =
      (true, [], {p with
        profileData := some {pd with methods := pd.methods.map (sigDecodeOnly env)}
        deobfuscated := true}) ∧
    ∀ m : AndroidMethod,
      (sigDecodeOnly env m).class_name = m.class_name ∧
      (sigDecodeOnly env m).name = m.name ∧
      (sigDecodeOnly env m).source_line = m.source_line ∧
      (sigDecodeOnly env m).source_file = m.source_file ∧
      (sigTruthy m.signature = false → (sigDecodeOnly env m).signature = m.signature) ∧
      (∀ s, m.signature = some s → s ≠ "" →
        (sigDecodeOnly env m).signature = some (env.formatSig (env.decodeSig s))) := by
  constructor
  · have hsd : should_deobfuscate p = true := by
      unfold should_deobfuscate SHOULD_DEOBFUSCATE
      rw [hplat, hflag]
      rfl
    unfold deobfuscate_profile
    rw [hsd, hpd]
    have hbody : deobfuscateBody env p =
        .ok {p with profileData := some {pd with methods := pd.methods.map (sigDecodeOnly env)}} := by
      unfold deobfuscateBody deobfuscateNoBuildId
      rcases hbid with hb | hb <;> rw [hb] <;> simp [hpd]
    simp [hbody]
  · intro m
    unfold sigDecodeOnly sigTruthy
    rcases hs : m.signature with _ | s
    · simp [hs]
    · by_cases hse : s = "" <;> simp [hs, hse]

/-- Witness for C8: a concrete android profile with one signed and one
unsigned method. -/
theorem c8_no_build_id_witness :
    deobfuscate_profile
        { decodeSig := fun _ => (["int", "int"], "void")
          formatSig := fun t => String.intercalate ";" t.1 }
        { platform := "android"
          profileData := some { methods := [
            { class_name := "a.b", name := "c", signature := some "(II)V", source_line := some 3 },
            { class_name := "d.e", name := "f" } ] } } =
      (true, [],
        { platform := "android"
          profileData := some { methods := [
            { class_name := "a.b", name := "c", signature := some "int;int", source_line := some 3 },
            { class_name := "d.e", name := "f" } ] }
          deobfuscated := true }) := by
  have h := c8_no_build_id
    { decodeSig := fun _ => (["int", "int"], "void")
      formatSig := fun t => String.intercalate ";" t.1 }
    { platform := "android"
      profileData := some { methods := [
        { class_name := "a.b", name := "c", signature := some "(II)V", source_line := some 3 },
        { class_name := "d.e", name := "f" } ] } }
    { methods := [
      { class_name := "a.b", name := "c", signature := some "(II)V", source_line := some 3 },
      { class_name := "d.e", name := "f" } ] }
    rfl rfl rfl (Or.inl rfl)
  exact h.1

/-! ## Claim C10: local deobfuscation with a mapping artifact lacking
line info -/

/-- Claim C10 (confirmed): when the fetched mapping artifact has no line
information, `_deobfuscate_locally` returns before decoding any
signature or remapping any method: the profile — in particular every
field of every method, signature included — is returned unchanged. -/
theorem c10_no_line_info (env : Env) (p : Profile) (bid : String) (mapper : Mapper)
    (hfetch : env.fetchDif bid = .ok (some mapper))
    (hline : mapper.has_line_info = false) :
    deobfuscate_locally env p bid = .ok p := by
  unfold deobfuscate_locally
  rw [hfetch]
  simp [hline]

/-- Witness for C10: a concrete mapper without line info, over a profile
with a signed method; nothing changes. -/
theorem c10_no_line_info_witness :
    deobfuscate_locally
        { fetchDif := fun _ => .ok (some
            { has_line_info := false
              remap_frame := fun _ _ _ => [{ class_name := "X", method := "y" }]
              remap_frame_params := fun _ _ _ _ => [{ class_name := "X", method := "y" }]
              remap_class := fun _ => some "X" }) }
        { platform := "android"
          profileData := some { methods := [
            { class_name := "a.b", name := "c", signature := some "(II)V" } ] } }
        "bid" =
      .ok { platform := "android"
            profileData := some { methods := [
              { class_name := "a.b", name := "c", signature := some "(II)V" } ] } } := by
  exact c10_no_line_info _ _ "bid"
    { has_line_info := false
      remap_frame := fun _ _ _ => [{ class_name := "X", method := "y" }]
      remap_frame_params := fun _ _ _ _ => [{ class_name := "X", method := "y" }]
      remap_class := fun _ => some "X" }
    rfl rfl

/-! ## Claim C5: rust stack truncation -/

/-- Specification-side leading truncation rule (the claim's true half):
drop the two leading indices exactly when the first frame carries the
perf-signal-handler marker. -/
def leadingTruncRust (frames : List Frame) (stack : List Nat) : Option (List Nat) := do
  let i0 ← pyGet stack 0
  let f0 ← frameFunction frames (i0 : Int)
  pure (if f0 = "perf_signal_handler" then pyDrop stack 2 else stack)

/-- Specification-side trailing truncation rule: drop the two trailing
indices exactly when the frame referenced at position `length - 2` has an
empty function name. -/
def trailingTruncRust (frames : List Frame) (s : List Nat) : Option (List Nat) := do
  let i1 ← pyGet s ((s.length : Int) - 2)
  let f1 ← frameFunction frames (i1 : Int)
  pure (if f1 = "" then pyDropLast s 2 else s)

/-- Claim C5 (corrected): the concrete stack `[0, 1]` over frames whose
first frame has an empty (non-marker) function name does not start with
the perf-signal-handler marker, yet it is modified by the rust
truncation helper (its trailing pair is dropped) — refuting "every stack
not starting with that marker frame is left untouched by truncation". -/
theorem c5_counterexample :
    frameFunction [{ function := some "" }, { function := some "g" }] 0 ≠
      some "perf_signal_handler" ∧
    truncate_stack_rust [{ function := some "" }, { function := some "g" }] [0, 1] ≠
      some [0, 1] ∧
    truncate_stack_rust [{ function := some "" }, { function := some "g" }] [0, 1] =
      some [] := by
  refine ⟨by decide, by decide, by decide⟩

/-- Claim C5 (amended): the rust truncation is the leading rule followed
by the trailing rule: a stack of length at least 2 whose first frame is
the marker has its first two indices removed, a stack not starting with
the marker keeps its leading indices, and independently either stack has
its last two indices removed when the frame referenced at position
`length - 2` (after the leading step) has an empty function name. -/
theorem c5_amended (frames : List Frame) (stack : List Nat) (h2 : 2 ≤ stack.length) :
    truncate_stack_rust frames stack =
      (leadingTruncRust frames stack).bind (trailingTruncRust frames) ∧
    (∀ i0 rest, stack = i0 :: rest →
      frameFunction frames (i0 : Int) = some "perf_signal_handler" →
      leadingTruncRust frames stack = some (pyDrop stack 2)) ∧
    (∀ i0 rest, stack = i0 :: rest →
      ∀ f0, frameFunction frames (i0 : Int) = some f0 → f0 ≠ "perf_signal_handler" →
      leadingTruncRust frames stack = some stack) := by
  refine ⟨?_, ?_, ?_⟩
  · unfold truncate_stack_rust leadingTruncRust trailingTruncRust
    rcases h0 : pyGet stack 0 with _ | i0 <;> simp only [h0, Option.bind_eq_bind,
      Option.none_bind, Option.some_bind, Option.bind_none]
    rcases hf : frameFunction frames (i0 : Int) with _ | f0 <;>
      simp only [hf, Option.none_bind, Option.some_bind, Option.pure_def]
  · intro i0 rest hs hf
    subst hs
    unfold leadingTruncRust
    have h0 : pyGet (i0 :: rest) 0 = some i0 := rfl
    simp [h0, hf]
  · intro i0 rest hs f0 hf hne
    subst hs
    unfold leadingTruncRust
    have h0 : pyGet (i0 :: rest) 0 = some i0 := rfl
    simp [h0, hf, hne]

/-- Witness for C5's amended claim at a concrete marker-led stack. -/
theorem c5_amended_witness :
    truncate_stack_rust [{ function := some "perf_signal_handler" }, { function := some "g" }]
        [0, 1] =
      (leadingTruncRust [{ function := some "perf_signal_handler" }, { function := some "g" }]
        [0, 1]).bind
        (trailingTruncRust
          [{ function := some "perf_signal_handler" }, { function := some "g" }]) ∧
    leadingTruncRust [{ function := some "perf_signal_handler" }, { function := some "g" }]
        [0, 1] = some (pyDrop [0, 1] 2) := by
  refine ⟨(c5_amended _ [0, 1] (by decide)).1, ?_⟩
  exact (c5_amended [{ function := some "perf_signal_handler" }, { function := some "g" }]
    [0, 1] (by decide)).2.1 0 [1] rfl (by decide)

/-! ## Claim C9: marker-led stacks of length exactly 2 raise, and the
stage converts the exception into an INVALID outcome -/

def c9profile : Profile :=
  { platform := "rust"
    version := some "1"
    event_id := some "e"
    debugImages := some [{ type := "macho" }]
    profileData := some { frames := [{ function := some "f0" }, { function := some "f1" }]
                          «stacks» := [[0, 1]] } }

def c9response : SymbResponse :=
  .completed none (some [[{ function := some "g0" }, { function := some "g1" },
    { function := some "perf_signal_handler" }]])

def c9env : Env := { symbResponse := fun _ => c9response }

/-- Claim C9 (confirmed): a reconciled stack of length exactly 2 whose
first frame is the perf-signal-handler marker makes the rust truncation
helper drop both indices and then index into the now-empty list, which
raises (modelled as `none`); on the concrete rust profile `c9profile`
this exception is caught at the symbolication stage boundary, which
returns false and emits exactly one INVALID outcome with reason
`profiling_failed_symbolication` instead of a truncated stack. -/
theorem c9_truncation_exception (frames : List Frame) (a b : Nat)
    (hmark : frameFunction frames (a : Int) = some "perf_signal_handler") :
    truncate_stack_rust frames [a, b] = none ∧
    symbolicate_profile c9env c9profile =
      (false, [{ outcome := .invalid, reason := some "profiling_failed_symbolication",
                 category := .profileIndexed, quantity := 1, event_id := some "e",
                 firedFirstProfileSignal := false }], c9profile) := by
  constructor
  · unfold truncate_stack_rust
    have h0 : pyGet [a, b] 0 = some a := rfl
    have h1 : pyGet (pyDrop [a, b] 2) ((((pyDrop [a, b] 2).length : Nat) : Int) - 2) =
        (none : Option Nat) := rfl
    simp [h0, hmark, h1]
  · rfl

/-- Witness for C9 at a concrete frame list. -/
theorem c9_truncation_exception_witness :
    truncate_stack_rust [{ function := some "perf_signal_handler" }] [0, 0] = none := by
  exact (c9_truncation_exception [{ function := some "perf_signal_handler" }] 0 0
    (by decide)).1

/-! ## Support lemmas: invariants of the symbolication stage -/

theorem exceptBind_ok {α β : Type} (a : α) (f : α → Except Unit β) :
    (Except.ok a >>= f) = f a := rfl

theorem exceptBind_err {α β : Type} (f : α → Except Unit β) :
    ((Except.error () : Except Unit α) >>= f) = .error () := rfl

/-- `_prepare_frames_from_profile` reads its modules from the current
debug images, and never touches the recorded symbolicator error, the
schema version, or the platform of the profile. -/
theorem exceptPure_ok {α : Type} (a : α) : (pure a : Except Unit α) = .ok a := rfl

theorem prepare_frames_inv (env : Env) (p : Profile) (pl : String)
    (q : Profile) (mods : List Image) (sts : List (List Frame)) (sent : List Nat)
    (h : prepare_frames_from_profile env p pl = .ok (q, mods, sts, sent)) :
    p.debugImages = some mods ∧
    q.symbolicator_error = p.symbolicator_error ∧
    q.version = p.version := by
  unfold prepare_frames_from_profile at h
  rcases hdi : p.debugImages with _ | imgs
  · rw [hdi] at h
    simp only [exceptOfOption, exceptBind_err] at h
    exact Except.noConfusion h
  rw [hdi] at h
  simp only [exceptOfOption, exceptBind_ok] at h
  rcases hv : p.version with _ | v <;> rw [hv] at h
  · rcases hsp : p.sampled_profile with _ | sp <;> rw [hsp] at h <;>
      simp only [exceptOfOption, exceptBind_ok, exceptBind_err, exceptPure_ok] at h
    · exact Except.noConfusion h
    · cases h
      exact ⟨rfl, rfl, rfl⟩
  · rcases hpd : p.profileData with _ | pd <;> rw [hpd] at h <;>
      simp only [exceptOfOption, exceptBind_ok, exceptBind_err, exceptPure_ok] at h
    · exact Except.noConfusion h
    by_cases hjs : pl ∈ JS_PLATFORMS
    · rw [if_pos hjs] at h
      cases h
      exact ⟨rfl, rfl, hv⟩
    · rw [if_neg hjs] at h
      by_cases hpp : p.platform ≠ pl
      · rw [if_pos hpp] at h
        rcases hps : prepStacksNonJS (decide (p.platform ∉ JS_PLATFORMS)) false
            pd.frames ((subPlatformSent pd.frames pl).filterMap
              (fun i => pd.frames.get? i)) (subPlatformSent pd.frames pl) pd.stacks with
          _ | res
        · rw [hps] at h
          simp only [exceptOfOption, exceptBind_err] at h
          exact Except.noConfusion h
        · rw [hps] at h
          obtain ⟨pf, fl, sent1, sts1⟩ := res
          simp only [exceptOfOption, exceptBind_ok, exceptPure_ok] at h
          cases h
          exact ⟨rfl, rfl, rfl⟩
      · rw [if_neg hpp] at h
        rcases hps : prepStacksNonJS (decide (p.platform ∉ JS_PLATFORMS)) true
            pd.frames pd.frames [] pd.stacks with _ | res
        · rw [hps] at h
          simp only [exceptOfOption, exceptBind_err] at h
          exact Except.noConfusion h
        · rw [hps] at h
          obtain ⟨pf, fl, sent1, sts1⟩ := res
          simp only [exceptOfOption, exceptBind_ok, exceptPure_ok] at h
          cases h
          exact ⟨rfl, rfl, rfl⟩

/-- `_process_symbolicator_results` never touches the schema version or
the recorded symbolicator error. -/
theorem process_results_inv (p : Profile) (mods : List Image) (sts : List (List Frame))
    (sent : List Nat) (pl : String) (q : Profile)
    (h : process_symbolicator_results p mods sts sent pl = .ok q) :
    q.version = p.version ∧ q.symbolicator_error = p.symbolicator_error := by
  unfold process_symbolicator_results at h
  rcases hv : p.version with _ | v <;> simp only [hv] at h
  · rcases hsp : p.sampled_profile with _ | sp <;> simp only [hsp, exceptOfOption,
      exceptBind_ok, exceptBind_err, exceptPure_ok] at h
    · exact Except.noConfusion h
    · cases h
      exact ⟨rfl, rfl⟩
  · rcases hpd : p.profileData with _ | pd <;> simp only [hpd, exceptOfOption,
      exceptBind_ok, exceptBind_err, exceptPure_ok] at h
    · exact Except.noConfusion h
    rcases hpr : process_symbolicator_results_for_sample pd sts sent pl with _ | pd2 <;>
      rw [hpr] at h <;> simp only [exceptOfOption, exceptBind_ok, exceptBind_err,
        exceptPure_ok] at h
    · exact Except.noConfusion h
    · cases h
      exact ⟨rfl, rfl⟩

/-- The symbolication loop never changes the schema version. -/
theorem symbLoop_version (env : Env) (images : String → List Image) :
    ∀ (pls : List String) (p q : Profile),
    symbLoop env images pls p = .ok q → q.version = p.version := by
  intro pls
  induction pls with
  | nil =>
    intro p q h
    unfold symbLoop at h
    cases h
    rfl
  | cons pl rest ih =>
    intro p q h
    unfold symbLoop at h
    rcases hprep : prepare_frames_from_profile env
        {p with debugImages := some (images pl)} pl with e | res
    · rw [hprep] at h
      cases e
      simp only [exceptBind_err] at h
      exact Except.noConfusion h
    · obtain ⟨p2, rawModules, rawStacktraces, sent⟩ := res
      rw [hprep] at h
      simp only [exceptBind_ok] at h
      rcases hrun : run_symbolicate (env.symbResponse pl) rawModules rawStacktraces with
        ⟨modules, stacktraces, success, err⟩
      rw [hrun] at h
      have hver2 : p2.version = p.version :=
        (prepare_frames_inv env {p with debugImages := some (images pl)} pl
          p2 rawModules rawStacktraces sent hprep).2.2
      rcases err with _ | e
      · by_cases hlen : (images pl).length ≠ modules.length
        · rw [if_pos hlen] at h
          exact Except.noConfusion h
        · rw [if_neg hlen] at h
          rcases success with _ | _
          · simp only [Bool.false_eq_true, reduceIte, exceptBind_ok] at h
            rw [ih _ _ h, hver2]
          · simp only [reduceIte] at h
            rcases hproc : process_symbolicator_results p2 modules stacktraces sent pl with
              e2 | p4
            · rw [hproc] at h
              cases e2
              simp only [exceptBind_err] at h
              exact Except.noConfusion h
            · rw [hproc] at h
              simp only [exceptBind_ok] at h
              rw [ih _ _ h, (process_results_inv _ modules stacktraces sent pl p4 hproc).1,
                hver2]
      · by_cases hlen : (images pl).length ≠ modules.length
        · rw [if_pos hlen] at h
          exact Except.noConfusion h
        · rw [if_neg hlen] at h
          rcases success with _ | _
          · simp only [Bool.false_eq_true, reduceIte, exceptBind_ok] at h
            rw [ih _ _ h]
            exact hver2
          · simp only [reduceIte] at h
            rcases hproc : process_symbolicator_results
                {p2 with symbolicator_error := some e} modules stacktraces sent pl with
              e2 | p4
            · rw [hproc] at h
              cases e2
              simp only [exceptBind_err] at h
              exact Except.noConfusion h
            · rw [hproc] at h
              simp only [exceptBind_ok] at h
              rw [ih _ _ h, (process_results_inv _ modules stacktraces sent pl p4 hproc).1]
              exact hver2

/-- Running the symbolication loop when the collaborator answers
`failed` for every requested platform: the loop succeeds whenever frame
preparation does, leaves the profile's frames merge untouched, and ends
with a recorded symbolicator error of the `failed` type (for a non-empty
platform list). -/
theorem symbLoop_failed (env : Env) (images : String → List Image) :
    ∀ (pls : List String) (p q : Profile),
    (∀ pl ∈ pls, ∃ msg, env.symbResponse pl = .failed msg) →
    symbLoop env images pls p = .ok q →
    (pls = [] → q = p) ∧
    (pls ≠ [] → ∃ msg, q.symbolicator_error =
      some { type := .nativeSymbolicatorFailed, status := some "failed", message := msg }) := by
  intro pls
  induction pls with
  | nil =>
    intro p q _ h
    unfold symbLoop at h
    cases h
    exact ⟨fun _ => rfl, fun hne => absurd rfl hne⟩
  | cons pl rest ih =>
    intro p q hfail h
    unfold symbLoop at h
    rcases hprep : prepare_frames_from_profile env
        {p with debugImages := some (images pl)} pl with e | res
    · rw [hprep] at h
      cases e
      simp only [exceptBind_err] at h
      exact Except.noConfusion h
    · obtain ⟨p2, rawModules, rawStacktraces, sent⟩ := res
      rw [hprep] at h
      simp only [exceptBind_ok] at h
      obtain ⟨msg, hresp⟩ := hfail pl (List.mem_cons_self pl rest)
      rw [hresp] at h
      have hrun : run_symbolicate (.failed msg) rawModules rawStacktraces =
          (rawModules, rawStacktraces, false,
            some { type := .nativeSymbolicatorFailed, status := some "failed",
                   message := msg }) := rfl
      rw [hrun] at h
      have hmods : rawModules = images pl := by
        have := (prepare_frames_inv env {p with debugImages := some (images pl)} pl
          p2 rawModules rawStacktraces sent hprep).1
        exact (Option.some.injEq _ _).mp this.symm
      have hlen : ¬ (images pl).length ≠ rawModules.length := by
        rw [hmods]
        exact fun hcon => hcon rfl
      rw [if_neg hlen] at h
      simp only [Bool.false_eq_true, reduceIte, exceptBind_ok] at h
      have hrest := ih _ q (fun pl2 hm => hfail pl2 (List.mem_cons_of_mem pl hm)) h
      refine ⟨fun hcon => List.noConfusion hcon, fun _ => ?_⟩
      rcases hrest2 : rest with _ | ⟨r1, r2⟩
      · rw [hrest2] at hrest
        rw [hrest.1 rfl]
        exact ⟨msg, rfl⟩
      · rw [hrest2] at hrest
        exact hrest.2 (List.noConfusion)

/-! ## Claim C2: symbolicator `failed` status -/

def c2profile : Profile :=
  { platform := "javascript"
    version := some "1"
    event_id := some "e"
    debugImages := some [{ type := "" }]
    profileData := some {} }

def c2env : Env := { symbResponse := fun _ => .failed (some "msg") }

/-- Claim C2 (corrected): on the concrete symbolication-eligible JS
profile `c2profile`, with the collaborator answering `status: "failed"`,
the stage returns **true** and emits **no** outcome (so later stages do
run) — refuting the claim that the stage returns false and an INVALID
outcome with reason `profiling_failed_symbolication` is emitted. The
typed error is recorded, and the idempotence flag is even set. -/
theorem c2_counterexample :
    c2env.symbResponse "javascript" = .failed (some "msg") ∧
    (symbolicate_profile c2env c2profile).1 = true ∧
    (symbolicate_profile c2env c2profile).2.1 = [] ∧
    (symbolicate_profile c2env c2profile).2.2.processed_by_symbolicator = true := by
  exact ⟨rfl, rfl, rfl, rfl⟩

/-- Claim C2 (amended): for every symbolication-eligible profile with
debug images whose platforms all get a `failed` response, whenever the
per-platform loop raises no exception the stage records a typed
`symbolicator_error` of the symbolicator-failed kind on the profile but
nevertheless returns **true** with **no** outcome emitted — the INVALID
outcome with reason `profiling_failed_symbolication` arises only from an
exception inside the stage. -/
theorem c2_amended (env : Env) (p : Profile) (platforms : List String) (p2 : Profile)
    (helig : should_symbolicate p = true)
    (hdm : p.debugImages.isSome)
    (hplat : get_profile_platforms p = .ok platforms)
    (hne : platforms ≠ [])
    (hfail : ∀ pl ∈ platforms, ∃ msg, env.symbResponse pl = .failed msg)
    (hloop : symbLoop env (fun pl => get_debug_images_for_platform env p pl) platforms p
      = .ok p2) :
    (symbolicate_profile env p).1 = true ∧
    (symbolicate_profile env p).2.1 = [] ∧
    ∃ msg, (symbolicate_profile env p).2.2.symbolicator_error =
      some { type := .nativeSymbolicatorFailed, status := some "failed",
             message := msg } := by
  obtain ⟨imgs, himgs⟩ := Option.isSome_iff_exists.mp hdm
  have hbody : symbolicateBody env p = .ok
      {p2 with debugImages := some (p.debugImages.getD [])
               processed_by_symbolicator := true} := by
    unfold symbolicateBody
    rw [hplat]
    simp only [exceptBind_ok]
    rw [hloop]
    simp only [exceptBind_ok, exceptPure_ok]
  have hstage : symbolicate_profile env p = (true, [],
      {p2 with debugImages := some (p.debugImages.getD [])
               processed_by_symbolicator := true}) := by
    unfold symbolicate_profile
    rw [helig, hbody]
    simp [himgs]
  obtain ⟨msg, herr⟩ := (symbLoop_failed env _ platforms p p2 hfail hloop).2 hne
  rw [hstage]
  exact ⟨rfl, rfl, msg, herr⟩

def c2err : SymbErrorInfo :=
  { type := .nativeSymbolicatorFailed, status := some "failed", message := some "msg" }

/-- Witness for C2's amended claim at `c2profile`/`c2env`. -/
theorem c2_amended_witness :
    (symbolicate_profile c2env c2profile).1 = true ∧
    (symbolicate_profile c2env c2profile).2.1 = [] ∧
    ∃ msg, (symbolicate_profile c2env c2profile).2.2.symbolicator_error =
      some { type := .nativeSymbolicatorFailed, status := some "failed",
             message := msg } := by
  exact c2_amended c2env c2profile ["javascript"]
    {c2profile with debugImages := some [], symbolicator_error := some c2err}
    rfl rfl rfl (by decide)
    (fun pl _ => ⟨some "msg", rfl⟩)
    (by rfl)

/-! ## Claim C3: the frame index map and the sample-format rebuild -/

theorem lookupA_insertIdx (m : List (Nat × List Nat)) (k i k2 : Nat) :
    lookupA (insertIdx m k i) k2 =
      if k2 = k then some ((lookupA m k).getD [] ++ [i]) else lookupA m k2 := by
  induction m with
  | nil =>
    by_cases hk : k2 = k
    · subst hk
      simp [insertIdx, lookupA]
    · simp [insertIdx, lookupA, hk]
      exact fun h => hk h.symm
  | cons hd rest ih =>
    obtain ⟨k3, v⟩ := hd
    by_cases h3 : k3 = k
    · subst h3
      by_cases hk : k2 = k3
      · subst hk
        simp [insertIdx, lookupA]
      · simp [insertIdx, lookupA, hk]
        have hne2 : ¬ k3 = k2 := fun h => hk h.symm
        rw [if_neg hne2, if_neg hne2]
    · by_cases hk2 : k3 = k2
      · subst hk2
        simp [insertIdx, lookupA, h3, fun h : k3 = k => h3 h]
      · simp [insertIdx, lookupA, h3, hk2, ih]

theorem frameIndexMapGo_lookup :
    ∀ (fs : List Frame) (i : Nat) (acc : List (Nat × List Nat)) (k : Nat),
    lookupA (frameIndexMapGo acc fs i) k =
      match lookupA acc k with
      | some v => some (v ++ originPositions fs i k)
      | none =>
          if originPositions fs i k = [] then none else some (originPositions fs i k) := by
  intro fs
  induction fs with
  | nil =>
    intro i acc k
    unfold frameIndexMapGo originPositions
    rcases lookupA acc k with _ | v <;> simp
  | cons f rest ih =>
    intro i acc k
    unfold frameIndexMapGo originPositions
    rw [ih (i + 1) (insertIdx acc (f.original_index.getD i) i) k, lookupA_insertIdx]
    by_cases hk : k = f.original_index.getD i
    · rw [if_pos hk, ← hk]
      rcases hacc : lookupA acc k with _ | v
      · simp
      · simp [List.append_assoc]
    · rw [if_neg hk]
      have : (if f.original_index.getD i = k then [i] else []) = ([] : List Nat) := by
        rw [if_neg (fun h => hk h.symm)]
      rw [this]
      rcases hacc : lookupA acc k with _ | v <;> simp

theorem countP_lt_succ (sent : List Nat) (hnd : sent.Nodup) (n : Nat) :
    sent.countP (fun j => decide (j < n + 1)) =
      sent.countP (fun j => decide (j < n)) + (if n ∈ sent then 1 else 0) := by
  induction sent with
  | nil => simp
  | cons a t ih =>
    have hnd2 := List.nodup_cons.mp hnd
    rw [List.countP_cons, List.countP_cons, ih hnd2.2]
    by_cases ha : a = n
    · subst ha
      rw [if_pos (List.mem_cons_self a t), if_neg hnd2.1]
      have h1 : (decide (a < a + 1)) = true := by simp
      have h2 : (decide (a < a)) = false := by simp
      rw [h1, h2]
      simp
    · have hlt : (decide (a < n + 1)) = (decide (a < n)) := by
        have hiff : (a < n + 1) ↔ (a < n) := by omega
        simp [hiff]
      rw [hlt]
      by_cases hn : n ∈ t
      · rw [if_pos hn, if_pos (List.mem_cons_of_mem a hn)]
        omega
      · have hnc : n ∉ a :: t := by
          intro hcon
          rcases List.mem_cons.mp hcon with h | h
          · exact ha h.symm
          · exact hn h
        rw [if_neg hn, if_neg hnc]
        omega

theorem rebuildGo_eq_specSplice (raw symb : List Frame) (sent : List Nat)
    (hnd : sent.Nodup) :
    ∀ (n s ctr : Nat), ctr = sent.countP (fun j => decide (j < s)) →
    rebuildGo raw symb sent (get_frame_index_map symb) (List.range' s n) ctr =
      specSplice raw symb sent (List.range' s n) := by
  intro n
  induction n with
  | zero => intro s ctr _; rfl
  | succ n ih =>
    intro s ctr hctr
    rw [List.range'_succ]
    unfold rebuildGo specSplice
    by_cases hs : s ∈ sent
    · rw [if_pos hs, if_pos hs, ← hctr]
      have hnext : ctr + 1 = sent.countP (fun j => decide (j < s + 1)) := by
        rw [countP_lt_succ sent hnd s, if_pos hs, ← hctr]
      rw [ih (s + 1) (ctr + 1) hnext]
    · rw [if_neg hs, if_neg hs]
      have hnext : ctr = sent.countP (fun j => decide (j < s + 1)) := by
        rw [countP_lt_succ sent hnd s, if_neg hs, ← hctr]
        omega
      rw [ih (s + 1) ctr hnext]

/-- Claim C3 (confirmed): with a non-empty, duplicate-free sent set, the
reconciler's index map sends each key `k` to the ordered list of result
positions whose declared origin (own position by default) is `k`, and
the source's rebuild loop — which consumes one map slot per sent index
with a running counter — coincides with the specification walk in which
each index not in the sent set is copied unchanged and each sent index
consumes the slot equal to its rank among sent indices, splicing in all
result frames mapped to that slot, in order. -/
theorem c3_frame_reconciliation (raw symb : List Frame) (sent : List Nat)
    (hnd : sent.Nodup) (_hne : sent ≠ []) :
    (∀ k, lookupA (get_frame_index_map symb) k =
      if originPositions symb 0 k = [] then none
      else some (originPositions symb 0 k)) ∧
    rebuildFrames raw symb sent (get_frame_index_map symb) =
      specRebuildFrames raw symb sent := by
  constructor
  · intro k
    exact frameIndexMapGo_lookup symb 0 [] k
  · unfold rebuildFrames specRebuildFrames
    rw [List.range_eq_range']
    exact rebuildGo_eq_specSplice raw symb sent hnd raw.length 0 0 (by simp)

/-- Witness for C3 on a concrete inline expansion: the second raw frame
was sent and expands into two result frames, both spliced in place. -/
theorem c3_frame_reconciliation_witness :
    rebuildFrames [{ function := some "a" }, { function := some "b" }]
        [{ function := some "B1" }, { function := some "B2", original_index := some 0 }]
        [1]
        (get_frame_index_map [{ function := some "B1" },
          { function := some "B2", original_index := some 0 }]) =
      specRebuildFrames [{ function := some "a" }, { function := some "b" }]
        [{ function := some "B1" }, { function := some "B2", original_index := some 0 }]
        [1] := by
  exact (c3_frame_reconciliation [{ function := some "a" }, { function := some "b" }]
    [{ function := some "B1" }, { function := some "B2", original_index := some 0 }]
    [1] (by decide) (by decide)).2

/-! ## Claim C4: v1 duration accounting. Sorting support lemmas first -/

theorem insertByKey_eq_orderedInsert {α : Type} (key : α → Int) (x : α) :
    ∀ l : List α, insertByKey key x l =
      List.orderedInsert (fun a b => key a ≤ key b) x l := by
  intro l
  induction l with
  | nil => rfl
  | cons y ys ih =>
    unfold insertByKey List.orderedInsert
    by_cases h : key y < key x
    · rw [if_pos h, if_neg (not_le.mpr h), ih]
    · rw [if_neg h, if_pos (le_of_not_lt h)]

theorem sortByKey_eq_insertionSort {α : Type} (key : α → Int) :
    ∀ l : List α, sortByKey key l =
      List.insertionSort (fun a b => key a ≤ key b) l := by
  intro l
  induction l with
  | nil => rfl
  | cons y ys ih =>
    unfold sortByKey List.insertionSort
    rw [ih, insertByKey_eq_orderedInsert]

theorem sortByKey_perm {α : Type} (key : α → Int) (l : List α) :
    List.Perm (sortByKey key l) l := by
  rw [sortByKey_eq_insertionSort]
  exact List.perm_insertionSort _ l

theorem sortByKey_length {α : Type} (key : α → Int) (l : List α) :
    (sortByKey key l).length = l.length :=
  (sortByKey_perm key l).length_eq

theorem sortByKey_mem {α : Type} (key : α → Int) (l : List α) (x : α) :
    x ∈ sortByKey key l ↔ x ∈ l :=
  (sortByKey_perm key l).mem_iff

theorem sortByKey_pairwise {α : Type} (key : α → Int) (l : List α) :
    List.Pairwise (fun a b => key a ≤ key b) (sortByKey key l) := by
  haveI : IsTotal α (fun a b => key a ≤ key b) := ⟨fun a b => Int.le_total (key a) (key b)⟩
  haveI : IsTrans α (fun a b => key a ≤ key b) :=
    ⟨fun a b c hab hbc => le_trans hab hbc⟩
  rw [sortByKey_eq_insertionSort]
  exact List.sorted_insertionSort _ l

theorem pairwise_head_le {α : Type} (key : α → Int) (a : α) (t : List α)
    (h : List.Pairwise (fun x y => key x ≤ key y) (a :: t)) :
    ∀ x ∈ a :: t, key a ≤ key x := by
  intro x hx
  rcases List.mem_cons.mp hx with h1 | h1
  · subst h1
    exact le_refl _
  · exact (List.pairwise_cons.mp h).1 x h1

theorem pairwise_le_getLast {α : Type} (key : α → Int) :
    ∀ (a : α) (t : List α), List.Pairwise (fun x y => key x ≤ key y) (a :: t) →
    ∀ x ∈ a :: t, key x ≤ key ((a :: t).getLast (List.cons_ne_nil a t)) := by
  intro a t
  induction t generalizing a with
  | nil =>
    intro _ x hx
    rcases List.mem_cons.mp hx with h1 | h1
    · subst h1
      exact le_refl _
    · exact absurd h1 (List.not_mem_nil x)
  | cons b t2 ih =>
    intro hp x hx
    have h2 := List.pairwise_cons.mp hp
    have hlast : (a :: b :: t2).getLast (List.cons_ne_nil a (b :: t2)) =
        (b :: t2).getLast (List.cons_ne_nil b t2) := rfl
    rcases List.mem_cons.mp hx with h1 | h1
    · subst h1
      rw [hlast]
      exact le_trans (h2.1 b (List.mem_cons_self b t2))
        (ih b h2.2 b (List.mem_cons_self b t2))
    · rw [hlast]
      exact ih b h2.2 x h1

theorem allSome_isSome {α β : Type} (f : α → Option β) :
    ∀ l : List α, (∀ x ∈ l, (f x).isSome) → ∃ v, allSome f l = some v := by
  intro l
  induction l with
  | nil => exact fun _ => ⟨[], rfl⟩
  | cons x xs ih =>
    intro h
    obtain ⟨b, hb⟩ := Option.isSome_iff_exists.mp (h x (List.mem_cons_self x xs))
    obtain ⟨bs, hbs⟩ := ih (fun y hy => h y (List.mem_cons_of_mem x hy))
    refine ⟨b :: bs, ?_⟩
    unfold allSome
    rw [hb, hbs]
    rfl

/-- Claim C4 (corrected → amended): for v1 profiles, the duration
outcome quantity is `min((end-start) in ms, 30000)` when the transaction
difference is positive; when it is non-positive (or the fields are
missing, defaulting to 0) the quantity is the sample span between the
maximum and minimum `elapsed_since_start_ns`, converted to milliseconds
and **likewise clamped to 30000**; with fewer than 2 samples the
computed duration is 0, and no duration outcome is emitted for a
non-positive computed duration. -/
theorem c4_amended (p : Profile) (t : Transaction) (pd : ProfileData)
    (hv : p.version = some "1")
    (ht : p.transaction = some t)
    (hpd : p.profileData = some pd) :
    (∀ q, calculate_profile_duration_ms p = some q →
      track_duration_outcome p = (if q ≤ 0 then [] else
        [{ outcome := .accepted, reason := none, category := .profileDuration,
           quantity := q, event_id := none, firedFirstProfileSignal := false }])) ∧
    calculate_profile_duration_ms p = calculate_duration_for_sample_format_v1 p ∧
    (0 < t.relative_end_ns.getD 0 - t.relative_start_ns.getD 0 →
      calculate_duration_for_sample_format_v1 p =
        some (min ((t.relative_end_ns.getD 0 - t.relative_start_ns.getD 0).tdiv 1000000)
          30000)) ∧
    (t.relative_end_ns.getD 0 - t.relative_start_ns.getD 0 ≤ 0 →
      (∀ s ∈ pd.samples, s.elapsed_since_start_ns.isSome) →
      ((pd.samples.length < 2 → calculate_duration_for_sample_format_v1 p = some 0) ∧
       (2 ≤ pd.samples.length →
        ∃ mn mx, mn ∈ pd.samples.map (fun s => s.elapsed_since_start_ns.getD 0) ∧
          mx ∈ pd.samples.map (fun s => s.elapsed_since_start_ns.getD 0) ∧
          (∀ x ∈ pd.samples.map (fun s => s.elapsed_since_start_ns.getD 0),
            mn ≤ x ∧ x ≤ mx) ∧
          calculate_duration_for_sample_format_v1 p =
            some (min ((mx - mn).tdiv 1000000) 30000)))) := by
  refine ⟨?_, ?_, ?_, ?_⟩
  · intro q hq
    unfold track_duration_outcome
    rw [hq]
  · unfold calculate_profile_duration_ms
    rw [hv]
    rfl
  · intro hd
    unfold calculate_duration_for_sample_format_v1
    rw [ht]
    simp only [Option.bind_eq_bind, Option.some_bind]
    rw [if_pos hd]
    rfl
  · intro hd hall
    have hgate := allSome_isSome (fun s => s.elapsed_since_start_ns) pd.samples hall
    obtain ⟨es, hes⟩ := hgate
    constructor
    · intro hlen
      unfold calculate_duration_for_sample_format_v1
      rw [ht]
      simp only [Option.bind_eq_bind, Option.some_bind]
      rw [if_neg (by omega), hpd]
      simp only [Option.bind_eq_bind, Option.some_bind]
      rw [hes]
      simp only [Option.bind_eq_bind, Option.some_bind]
      rw [if_pos (by rw [sortByKey_length]; exact hlen)]
      rfl
    · intro hlen
      have hlen2 : 2 ≤ (sortByKey (fun s => s.elapsed_since_start_ns.getD 0)
          pd.samples).length := by
        rw [sortByKey_length]
        exact hlen
      rcases hsort : sortByKey (fun s => s.elapsed_since_start_ns.getD 0) pd.samples with
        _ | ⟨h0, t0⟩
      · rw [hsort] at hlen2
        simp at hlen2
      have hpair := sortByKey_pairwise (fun s => s.elapsed_since_start_ns.getD 0) pd.samples
      rw [hsort] at hpair
      have hmemiff := fun x => sortByKey_mem (fun s => s.elapsed_since_start_ns.getD 0)
        pd.samples x
      have hmem0 : h0 ∈ pd.samples := by
        rw [← hmemiff h0, hsort]
        exact List.mem_cons_self h0 t0
      have hlastel := (h0 :: t0).getLast (List.cons_ne_nil h0 t0)
      have hmemL : (h0 :: t0).getLast (List.cons_ne_nil h0 t0) ∈ pd.samples := by
        rw [← hmemiff _, hsort]
        exact List.getLast_mem (List.cons_ne_nil h0 t0)
      obtain ⟨f0, hf0⟩ := Option.isSome_iff_exists.mp (hall h0 hmem0)
      obtain ⟨l0, hl0⟩ := Option.isSome_iff_exists.mp (hall _ hmemL)
      refine ⟨f0, l0, ?_, ?_, ?_, ?_⟩
      · refine List.mem_map.mpr ⟨h0, hmem0, ?_⟩
        rw [hf0]
        rfl
      · refine List.mem_map.mpr ⟨(h0 :: t0).getLast (List.cons_ne_nil h0 t0), hmemL, ?_⟩
        rw [hl0]
        rfl
      · intro x hx
        obtain ⟨s, hsmem, hsx⟩ := List.mem_map.mp hx
        have hsin : s ∈ h0 :: t0 := by
          rw [← hsort, hmemiff s]
          exact hsmem
        constructor
        · have hb := pairwise_head_le (fun s2 => s2.elapsed_since_start_ns.getD 0) h0 t0
            hpair s hsin
          rw [← hsx]
          have h2 : h0.elapsed_since_start_ns.getD 0 = f0 := by
            rw [hf0]
            rfl
          rw [← h2]
          exact hb
        · have hb := pairwise_le_getLast (fun s2 => s2.elapsed_since_start_ns.getD 0) h0 t0
            hpair s hsin
          rw [← hsx]
          have h2 : ((h0 :: t0).getLast
              (List.cons_ne_nil h0 t0)).elapsed_since_start_ns.getD 0 = l0 := by
            rw [hl0]
            rfl
          rw [← h2]
          exact hb
      · unfold calculate_duration_for_sample_format_v1
        rw [ht]
        simp only [Option.bind_eq_bind, Option.some_bind]
        rw [if_neg (by omega), hpd]
        simp only [Option.bind_eq_bind, Option.some_bind]
        rw [hes]
        simp only [Option.bind_eq_bind, Option.some_bind]
        rw [hsort]
        have hlen3 : ¬ (h0 :: t0).length < 2 := by
          rw [← hsort]
          omega
        rw [if_neg hlen3]
        have hhead : (h0 :: t0).head? = some h0 := rfl
        have hlast9 : (h0 :: t0).getLast? =
            some ((h0 :: t0).getLast (List.cons_ne_nil h0 t0)) :=
          List.getLast?_eq_getLast _ _
        rw [hhead, hlast9]
        simp only [Option.bind_eq_bind, Option.some_bind]
        rw [hf0, hl0]
        simp only [Option.bind_eq_bind, Option.some_bind]
        rfl

def c4profile : Profile :=
  { platform := "cocoa"
    version := some "1"
    transaction := some {}
    profileData := some { samples := [{ elapsed_since_start_ns := some 0 },
      { elapsed_since_start_ns := some 40000000000 }] } }

/-- Claim C4 (corrected): on a concrete v1 profile with missing
relative start/end and a 40-second sample span, the emitted duration
quantity is 30000 (the fallback is clamped too), not the 40000 ms span —
refuting the claim that in the fallback the quantity equals the span
between the maximum and minimum `elapsed_since_start_ns`. -/
theorem c4_counterexample :
    (track_duration_outcome c4profile).map (fun ev => ev.quantity) = [30000] ∧
    ((40000000000 : Int) - 0).tdiv 1000000 = 40000 ∧
    (30000 : Int) ≠ 40000 := by
  refine ⟨rfl, by decide, by decide⟩

def c4wprofile : Profile :=
  { platform := "cocoa"
    version := some "1"
    transaction := some { relative_start_ns := some 1000000
                          relative_end_ns := some 100000000000 }
    profileData := some {} }

/-- Witness for C4's amended claim: a concrete positive transaction
difference is converted to milliseconds and clamped. -/
theorem c4_amended_witness :
    calculate_duration_for_sample_format_v1 c4wprofile =
      some (min (((100000000000 : Int) - 1000000).tdiv 1000000) 30000) := by
  have h := c4_amended c4wprofile
    { relative_start_ns := some 1000000, relative_end_ns := some 100000000000 } {}
    rfl rfl rfl
  exact h.2.2.1 (by decide)

/-! ## Claim C1: terminal-outcome accounting of the orchestrator.
Stage-shape and version-preservation lemmas first -/

theorem symbolicateBody_version (env : Env) (p p2 : Profile)
    (h : symbolicateBody env p = .ok p2) : p2.version = p.version := by
  unfold symbolicateBody at h
  rcases hplat : get_profile_platforms p with e | pls <;> rw [hplat] at h
  · cases e
    simp only [exceptBind_err] at h
    exact Except.noConfusion h
  · simp only [exceptBind_ok] at h
    rcases hloop : symbLoop env (fun pl => get_debug_images_for_platform env p pl) pls p with
      e | p3 <;> rw [hloop] at h
    · cases e
      simp only [exceptBind_err] at h
      exact Except.noConfusion h
    · simp only [exceptBind_ok, exceptPure_ok] at h
      cases h
      exact symbLoop_version env _ pls p p3 hloop

theorem symbolicate_stage_spec (env : Env) (p : Profile) :
    ((symbolicate_profile env p).1 = true ∧ (symbolicate_profile env p).2.1 = []) ∨
    ((symbolicate_profile env p).1 = false ∧ (symbolicate_profile env p).2.1 =
      [track_outcome_ev env.hasProfiles p .invalid
        (some "profiling_failed_symbolication")]) := by
  unfold symbolicate_profile
  by_cases h1 : (!should_symbolicate p) = true
  · rw [if_pos h1]
    exact Or.inl ⟨rfl, rfl⟩
  · rw [if_neg h1]
    by_cases h2 : p.debugImages.isNone = true
    · rw [if_pos h2]
      exact Or.inl ⟨rfl, rfl⟩
    · rw [if_neg h2]
      rcases hb : symbolicateBody env p with e | p2
      · exact Or.inr ⟨rfl, rfl⟩
      · exact Or.inl ⟨rfl, rfl⟩

theorem symbolicate_stage_version (env : Env) (p : Profile) :
    (symbolicate_profile env p).2.2.version = p.version := by
  unfold symbolicate_profile
  by_cases h1 : (!should_symbolicate p) = true
  · rw [if_pos h1]
  · rw [if_neg h1]
    by_cases h2 : p.debugImages.isNone = true
    · rw [if_pos h2]
    · rw [if_neg h2]
      rcases hb : symbolicateBody env p with e | p2
      · rfl
      · exact symbolicateBody_version env p p2 hb

theorem deobNoBuildId_version (env : Env) (p q : Profile)
    (h : deobfuscateNoBuildId env p = .ok q) : q.version = p.version := by
  unfold deobfuscateNoBuildId at h
  rcases hpd : p.profileData with _ | pd <;> rw [hpd] at h
  · exact Except.noConfusion h
  · cases h
    rfl

theorem deobLocally_version (env : Env) (p : Profile) (bid : String) (q : Profile)
    (h : deobfuscate_locally env p bid = .ok q) : q.version = p.version := by
  unfold deobfuscate_locally at h
  split at h
  · exact Except.noConfusion h
  · cases h
    rfl
  · split at h
    · cases h
      rfl
    · split at h
      · exact Except.noConfusion h
      · cases h
        rfl

theorem deobfuscateBody_version (env : Env) (p q : Profile)
    (h : deobfuscateBody env p = .ok q) : q.version = p.version := by
  unfold deobfuscateBody at h
  split at h
  · exact deobNoBuildId_version env p q h
  · split at h
    · exact deobNoBuildId_version env p q h
    · split at h
      · split at h
        · split at h
          · cases h
            rfl
          · cases h
            rfl
        · cases h
          rfl
      · exact deobLocally_version env p _ q h

theorem deobfuscate_stage_spec (env : Env) (p : Profile) :
    ((deobfuscate_profile env p).1 = true ∧ (deobfuscate_profile env p).2.1 = []) ∨
    ((deobfuscate_profile env p).1 = false ∧ (deobfuscate_profile env p).2.1 =
      [track_outcome_ev env.hasProfiles p .invalid
        (some "profiling_failed_deobfuscation")]) := by
  unfold deobfuscate_profile
  by_cases h1 : (!should_deobfuscate p) = true
  · rw [if_pos h1]
    exact Or.inl ⟨rfl, rfl⟩
  · rw [if_neg h1]
    by_cases h2 : p.profileData.isNone = true
    · rw [if_pos h2]
      exact Or.inl ⟨rfl, rfl⟩
    · rw [if_neg h2]
      rcases hb : deobfuscateBody env p with e | p2
      · exact Or.inr ⟨rfl, rfl⟩
      · exact Or.inl ⟨rfl, rfl⟩

theorem deobfuscate_stage_version (env : Env) (p : Profile) :
    (deobfuscate_profile env p).2.2.version = p.version := by
  unfold deobfuscate_profile
  by_cases h1 : (!should_deobfuscate p) = true
  · rw [if_pos h1]
  · rw [if_neg h1]
    by_cases h2 : p.profileData.isNone = true
    · rw [if_pos h2]
    · rw [if_neg h2]
      rcases hb : deobfuscateBody env p with e | p2
      · rfl
      · exact deobfuscateBody_version env p p2 hb

theorem normalizeClassify_version (env : Env) (p1 q : Profile)
    (h : normalizeClassify env p1 = .ok q) : q.version = p1.version := by
  unfold normalizeClassify at h
  rcases hopts : normalizeOpts p1 with e | opts1 <;> rw [hopts] at h
  · cases e
    simp only [exceptBind_err] at h
    exact Except.noConfusion h
  · simp only [exceptBind_ok] at h
    by_cases h1 : p1.version = some "1"
    · rw [if_pos h1] at h
      rcases hd : p1.device with _ | d <;> rw [hd] at h <;>
        simp only [exceptOfOption, exceptBind_ok, exceptBind_err] at h
      · exact Except.noConfusion h
      rcases ho : p1.os with _ | o <;> rw [ho] at h <;>
        simp only [exceptOfOption, exceptBind_ok, exceptBind_err, exceptPure_ok] at h
      · exact Except.noConfusion h
      cases h
      rfl
    · rw [if_neg h1] at h
      by_cases h2 : p1.version = none
      · rw [if_pos h2] at h
        rcases hdm : p1.device_model with _ | dm <;> rw [hdm] at h <;>
          simp only [exceptOfOption, exceptBind_ok, exceptBind_err] at h
        · exact Except.noConfusion h
        rcases hdn : p1.device_os_name with _ | dn <;> rw [hdn] at h <;>
          simp only [exceptOfOption, exceptBind_ok, exceptBind_err] at h
        · exact Except.noConfusion h
        rcases hde : p1.device_is_emulator with _ | de <;> rw [hde] at h <;>
          simp only [exceptOfOption, exceptBind_ok, exceptBind_err, exceptPure_ok] at h
        · exact Except.noConfusion h
        cases h
        rfl
      · rw [if_neg h2] at h
        exact Except.noConfusion h

theorem normalizeRest_version (env : Env) (p1 q : Profile)
    (h : normalizeRest env p1 = .ok q) : q.version = p1.version := by
  unfold normalizeRest at h
  split at h
  · cases h
    rfl
  · exact normalizeClassify_version env p1 q h

theorem normalizeBody_version (env : Env) (p q : Profile)
    (h : normalizeBody env p = .ok q) : q.version = p.version := by
  unfold normalizeBody at h
  have h2 := normalizeRest_version env
    {p with retention_days := some (match env.retention with
      | none => 90
      | some 0 => 90
      | some k => k)} q h
  exact h2

theorem normalize_stage_spec (env : Env) (p : Profile) :
    ((normalize_profile env p).1 = true ∧ (normalize_profile env p).2.1 = []) ∨
    ((normalize_profile env p).1 = false ∧ (normalize_profile env p).2.1 =
      [track_outcome_ev env.hasProfiles p .invalid
        (some "profiling_failed_normalization")]) := by
  unfold normalize_profile
  by_cases h1 : p.normalized = true
  · rw [if_pos h1]
    exact Or.inl ⟨rfl, rfl⟩
  · rw [if_neg h1]
    rcases hb : normalizeBody env p with e | p2
    · exact Or.inr ⟨rfl, rfl⟩
    · exact Or.inl ⟨rfl, rfl⟩

theorem normalize_stage_version (env : Env) (p : Profile) :
    (normalize_profile env p).2.2.version = p.version := by
  unfold normalize_profile
  by_cases h1 : p.normalized = true
  · rw [if_pos h1]
  · rw [if_neg h1]
    rcases hb : normalizeBody env p with e | p2
    · rfl
    · exact normalizeBody_version env p p2 hb

theorem push_stage_spec (env : Env) (q : Profile) :
    push_profile_to_vroom env q = .ok (true, []) ∨
    push_profile_to_vroom env q = .ok (false,
      [track_outcome_ev env.hasProfiles q .invalid
        (some "profiling_failed_vroom_insertion")]) ∨
    push_profile_to_vroom env q = .error () := by
  unfold push_profile_to_vroom
  rcases hi : insert_vroom_profile env.vroomResp with e | b
  · cases e
    right
    right
    rfl
  · rcases b with _ | _
    · right
      left
      rfl
    · left
      rfl

theorem isTerminal_track_outcome (hp : Bool) (q : Profile) (o : OutcomeKind)
    (rs : Option String) : isTerminal (track_outcome_ev hp q o rs) = true := by
  unfold isTerminal track_outcome_ev get_data_category
  by_cases hv : q.version = some "2" <;> simp [hv]

theorem filter_track_duration (q : Profile) :
    (track_duration_outcome q).filter isTerminal = [] := by
  unfold track_duration_outcome
  rcases hc : calculate_profile_duration_ms q with _ | d
  · rfl
  · by_cases hd : d ≤ 0 <;> simp [hd, isTerminal]

theorem prepare_js_wrap_version (p : Profile) (jsData : ProfileData) (jsProf : Profile)
    (h : prepare_android_js_wrap p jsData = .ok jsProf) : jsProf.version = some "1" := by
  unfold prepare_android_js_wrap at h
  rcases he : p.event_id with _ | eid <;> rw [he] at h
  · exact Except.noConfusion h
  · cases h
    rfl

theorem get_data_category_congr (q p : Profile) (h : q.version = p.version) :
    get_data_category q = get_data_category p := by
  unfold get_data_category
  rw [h]

theorem pipelineTail_spec (env : Env) (p : Profile) (acc : List OutcomeEvent) :
    ((pipelineTail env p acc).2 = .aborted →
      ∃ ev, (pipelineTail env p acc).1 = acc ++ [ev] ∧ ev.outcome = .invalid ∧
        isTerminal ev = true ∧
        (∃ s, ev.reason = some s ∧ (s = "profiling_failed_normalization" ∨
          s = "profiling_failed_vroom_insertion")) ∧
        ev.category = get_data_category p) ∧
    ((pipelineTail env p acc).2 = .completed →
      (pipelineTail env p acc).1.filter isTerminal = acc.filter isTerminal ++
        (if p.version = some "2" then []
         else [track_outcome_ev env.hasProfiles ((normalize_profile env p).2.2)
           .accepted none])) ∧
    ((pipelineTail env p acc).2 = .retryVroomTimeout →
      (pipelineTail env p acc).1 = acc) ∧
    (pipelineTail env p acc).2 ≠ .crashed := by
  have hv4 := normalize_stage_version env p
  have hs := normalize_stage_spec env p
  unfold pipelineTail
  rcases hn : normalize_profile env p with ⟨b4, o4, p4⟩
  rw [hn] at hs hv4
  simp only at hs hv4
  rcases b4 with _ | _
  · rcases hs with ⟨hfalse, _⟩ | ⟨hb, ho⟩
    · exact absurd hfalse (by decide)
    refine ⟨?_, ?_, ?_, ?_⟩
    · intro _
      refine ⟨track_outcome_ev env.hasProfiles p .invalid
        (some "profiling_failed_normalization"), ?_, rfl, ?_, ?_, rfl⟩
      · rw [ho]
      · exact isTerminal_track_outcome _ _ _ _
      · exact ⟨"profiling_failed_normalization", rfl, Or.inl rfl⟩
    · intro hcon
      exact PipeResult.noConfusion hcon
    · intro hcon
      exact PipeResult.noConfusion hcon
    · exact fun hcon => PipeResult.noConfusion hcon
  · rcases hs with ⟨_, ho⟩ | ⟨hfalse, _⟩
    · dsimp only
      rcases push_stage_spec env p4 with hp | hp | hp <;> rw [hp]
      · refine ⟨?_, ?_, ?_, ?_⟩
        · intro hcon
          exact PipeResult.noConfusion hcon
        · intro _
          rw [List.filter_append, List.filter_append, filter_track_duration]
          rw [← hv4]
          by_cases h2 : p4.version = some "2"
          · simp [h2]
          · simp [h2, List.filter_cons, isTerminal_track_outcome]
        · intro hcon
          exact PipeResult.noConfusion hcon
        · exact fun hcon => PipeResult.noConfusion hcon
      · refine ⟨?_, ?_, ?_, ?_⟩
        · intro _
          refine ⟨track_outcome_ev env.hasProfiles p4 .invalid
            (some "profiling_failed_vroom_insertion"), rfl, rfl, ?_, ?_, ?_⟩
          · exact isTerminal_track_outcome _ _ _ _
          · exact ⟨"profiling_failed_vroom_insertion", rfl, Or.inr rfl⟩
          · exact get_data_category_congr p4 p hv4
        · intro hcon
          exact PipeResult.noConfusion hcon
        · intro hcon
          exact PipeResult.noConfusion hcon
        · exact fun hcon => PipeResult.noConfusion hcon
      · refine ⟨?_, ?_, ?_, ?_⟩
        · intro hcon
          exact PipeResult.noConfusion hcon
        · intro hcon
          exact PipeResult.noConfusion hcon
        · intro _
          rfl
        · exact fun hcon => PipeResult.noConfusion hcon
    · exact absurd hfalse (by decide)

theorem track_outcome_category_facts (hp : Bool) (q : Profile) (o : OutcomeKind)
    (rs : Option String) :
    ((track_outcome_ev hp q o rs).category = Category.profileChunk → q.version = some "2") ∧
    (q.version ≠ some "2" → (track_outcome_ev hp q o rs).category = .profileIndexed) := by
  unfold track_outcome_ev get_data_category
  by_cases hv : q.version = some "2" <;> simp [hv]

/-- Claim C1 (corrected → amended): every run that reaches the stage
machine and terminates normally emits exactly one terminal outcome when
aborted — an INVALID with the failing stage's reason, whose category is
`PROFILE_CHUNK` only for v2 profiles and is `PROFILE_INDEXED` whenever
the root profile is not v2 — and on the success path emits exactly one
terminal ACCEPTED outcome with category `PROFILE_INDEXED` when the
version is not `"2"` but **no terminal outcome at all** when the version
is `"2"`; a retry-raising (429) run emits no terminal outcome. -/
theorem c1_amended (env : Env) (p : Profile) :
    ((process_profile_task env p).2 = .aborted →
      ∃ ev, (process_profile_task env p).1.filter isTerminal = [ev] ∧
        ev.outcome = .invalid ∧
        (∃ s, ev.reason = some s ∧
          (s = "profiling_failed_symbolication" ∨ s = "profiling_failed_deobfuscation" ∨
           s = "profiling_failed_normalization" ∨ s = "profiling_failed_vroom_insertion")) ∧
        (ev.category = .profileChunk → p.version = some "2") ∧
        (p.version ≠ some "2" → ev.category = .profileIndexed)) ∧
    ((process_profile_task env p).2 = .completed →
      ((p.version = some "2" → (process_profile_task env p).1.filter isTerminal = []) ∧
       (p.version ≠ some "2" → ∃ ev,
         (process_profile_task env p).1.filter isTerminal = [ev] ∧
         ev.outcome = .accepted ∧ ev.category = .profileIndexed ∧ ev.reason = none))) ∧
    ((process_profile_task env p).2 = .retryVroomTimeout →
      (process_profile_task env p).1.filter isTerminal = []) := by
  have hv1 := symbolicate_stage_version env p
  have hs1 := symbolicate_stage_spec env p
  unfold process_profile_task
  rcases h1 : symbolicate_profile env p with ⟨b1, o1, p1⟩
  rw [h1] at hs1 hv1
  simp only at hs1 hv1
  rcases b1 with _ | _
  · rcases hs1 with ⟨hfalse, _⟩ | ⟨_, ho1⟩
    · exact absurd hfalse (by decide)
    refine ⟨?_, ?_, ?_⟩
    · intro _
      refine ⟨track_outcome_ev env.hasProfiles p .invalid
        (some "profiling_failed_symbolication"), ?_, rfl, ?_, ?_, ?_⟩
      · dsimp only
        rw [ho1]
        simp [List.filter_cons, isTerminal_track_outcome]
      · exact ⟨"profiling_failed_symbolication", rfl, Or.inl rfl⟩
      · exact (track_outcome_category_facts env.hasProfiles p .invalid _).1
      · exact (track_outcome_category_facts env.hasProfiles p .invalid _).2
    · intro hcon
      exact PipeResult.noConfusion hcon
    · intro hcon
      exact PipeResult.noConfusion hcon
  · rcases hs1 with ⟨_, ho1⟩ | ⟨hfalse, _⟩
    swap
    · exact absurd hfalse (by decide)
    have hv2 := deobfuscate_stage_version env p1
    have hs2 := deobfuscate_stage_spec env p1
    dsimp only
    rcases h2 : deobfuscate_profile env p1 with ⟨b2, o2, p2⟩
    rw [h2] at hs2 hv2
    simp only at hs2 hv2
    rcases b2 with _ | _
    · rcases hs2 with ⟨hfalse, _⟩ | ⟨_, ho2⟩
      · exact absurd hfalse (by decide)
      refine ⟨?_, ?_, ?_⟩
      · intro _
        refine ⟨track_outcome_ev env.hasProfiles p1 .invalid
          (some "profiling_failed_deobfuscation"), ?_, rfl, ?_, ?_, ?_⟩
        · dsimp only
          rw [ho1, ho2]
          simp [List.filter_cons, isTerminal_track_outcome]
        · exact ⟨"profiling_failed_deobfuscation", rfl, Or.inr (Or.inl rfl)⟩
        · intro hcat
          rw [← hv1]
          exact (track_outcome_category_facts env.hasProfiles p1 .invalid _).1 hcat
        · intro hne
          refine (track_outcome_category_facts env.hasProfiles p1 .invalid _).2 ?_
          rw [hv1]
          exact hne
      · intro hcon
        exact PipeResult.noConfusion hcon
      · intro hcon
        exact PipeResult.noConfusion hcon
    · rcases hs2 with ⟨_, ho2⟩ | ⟨hfalse, _⟩
      swap
      · exact absurd hfalse (by decide)
      dsimp only
      have hvp2 : p2.version = p.version := by rw [hv2, hv1]
      rcases hjs : p2.js_profile with _ | jsData
      · -- no hybrid sub-profile: straight to the tail
        have ht := pipelineTail_spec env p2 (o1 ++ o2)
        refine ⟨?_, ?_, ?_⟩
        · intro habort
          obtain ⟨ev, hout, hinv, hterm, ⟨s, hr, hsor⟩, hcat⟩ := ht.1 habort
          refine ⟨ev, ?_, hinv, ⟨s, hr, ?_⟩, ?_, ?_⟩
          · rw [hout, ho1, ho2, List.filter_append]
            simp [List.filter_cons, hterm]
          · rcases hsor with h | h
            · exact Or.inr (Or.inr (Or.inl h))
            · exact Or.inr (Or.inr (Or.inr h))
          · intro hchunk
            rw [hcat] at hchunk
            rw [← hvp2]
            unfold get_data_category at hchunk
            by_cases hx : p2.version = some "2"
            · exact hx
            · rw [if_neg hx] at hchunk
              exact absurd hchunk (by decide)
          · intro hne
            rw [hcat]
            unfold get_data_category
            rw [if_neg (by rw [hvp2]; exact hne)]
        · intro hcompl
          have hfil := ht.2.1 hcompl
          constructor
          · intro h2v
            rw [hfil, ho1, ho2]
            rw [if_pos (by rw [hvp2]; exact h2v)]
            simp
          · intro hne
            refine ⟨track_outcome_ev env.hasProfiles ((normalize_profile env p2).2.2)
              .accepted none, ?_, rfl, ?_, rfl⟩
            · rw [hfil, ho1, ho2]
              rw [if_neg (by rw [hvp2]; exact hne)]
              simp
            · refine (track_outcome_category_facts _ _ _ _).2 ?_
              rw [normalize_stage_version env p2, hvp2]
              exact hne
        · intro hretry
          rw [ht.2.2.1 hretry, ho1, ho2]
          rfl
      · dsimp only
        rcases hw : prepare_android_js_wrap p2 jsData with e | jsProf
        · refine ⟨?_, ?_, ?_⟩ <;> intro hcon <;> exact PipeResult.noConfusion hcon
        · have hjsv := prepare_js_wrap_version p2 jsData jsProf hw
          dsimp only
          have hs3 := symbolicate_stage_spec env jsProf
          rcases h3 : symbolicate_profile env jsProf with ⟨b3, o3, p3⟩
          rw [h3] at hs3
          simp only at hs3
          rcases b3 with _ | _
          · rcases hs3 with ⟨hfalse, _⟩ | ⟨_, ho3⟩
            · exact absurd hfalse (by decide)
            have hjscat : (track_outcome_ev env.hasProfiles jsProf .invalid
                (some "profiling_failed_symbolication")).category = .profileIndexed := by
              unfold track_outcome_ev get_data_category
              rw [hjsv]
              simp
            refine ⟨?_, ?_, ?_⟩
            · intro _
              refine ⟨track_outcome_ev env.hasProfiles jsProf .invalid
                (some "profiling_failed_symbolication"), ?_, rfl, ?_, ?_, ?_⟩
              · dsimp only
                rw [ho1, ho2, ho3]
                simp [List.filter_cons, isTerminal_track_outcome]
              · exact ⟨"profiling_failed_symbolication", rfl, Or.inl rfl⟩
              · intro hchunk
                rw [hjscat] at hchunk
                exact absurd hchunk (by decide)
              · intro _
                exact hjscat
            · intro hcon
              exact PipeResult.noConfusion hcon
            · intro hcon
              exact PipeResult.noConfusion hcon
          · rcases hs3 with ⟨_, ho3⟩ | ⟨hfalse, _⟩
            swap
            · exact absurd hfalse (by decide)
            dsimp only
            have hvq : ({p2 with js_profile := p3.profileData} : Profile).version = p.version :=
              hvp2
            have ht := pipelineTail_spec env {p2 with js_profile := p3.profileData}
              (o1 ++ o2 ++ o3)
            refine ⟨?_, ?_, ?_⟩
            · intro habort
              obtain ⟨ev, hout, hinv, hterm, ⟨s, hr, hsor⟩, hcat⟩ := ht.1 habort
              refine ⟨ev, ?_, hinv, ⟨s, hr, ?_⟩, ?_, ?_⟩
              · rw [hout, ho1, ho2, ho3, List.filter_append]
                simp [List.filter_cons, hterm]
              · rcases hsor with h | h
                · exact Or.inr (Or.inr (Or.inl h))
                · exact Or.inr (Or.inr (Or.inr h))
              · intro hchunk
                rw [hcat] at hchunk
                rw [← hvq]
                unfold get_data_category at hchunk
                by_cases hx : ({p2 with js_profile := p3.profileData} : Profile).version
                    = some "2"
                · exact hx
                · rw [if_neg hx] at hchunk
                  exact absurd hchunk (by decide)
              · intro hne
                rw [hcat]
                unfold get_data_category
                rw [if_neg (by rw [hvq]; exact hne)]
            · intro hcompl
              have hfil := ht.2.1 hcompl
              constructor
              · intro h2v
                rw [hfil, ho1, ho2, ho3]
                rw [if_pos (by rw [hvq]; exact h2v)]
                simp
              · intro hne
                refine ⟨track_outcome_ev env.hasProfiles
                  ((normalize_profile env {p2 with js_profile := p3.profileData}).2.2)
                  .accepted none, ?_, rfl, ?_, rfl⟩
                · rw [hfil, ho1, ho2, ho3]
                  rw [if_neg (by rw [hvq]; exact hne)]
                  simp
                · refine (track_outcome_category_facts _ _ _ _).2 ?_
                  rw [normalize_stage_version env _, hvq]
                  exact hne
            · intro hretry
              rw [ht.2.2.1 hretry, ho1, ho2, ho3]
              rfl

def c1profile : Profile :=
  {platform := "python", version := some "2", chunk_id := some "c", profileData := some {}}

/-- Claim C1 counterexample: a v2 profile that succeeds end-to-end emits NO
terminal outcome at all (the orchestrator skips the ACCEPTED emission when
`profile.get("version") == "2"`), refuting "exactly one terminal outcome ...
ACCEPTED on the success path" for every run. -/
theorem c1_counterexample :
    c1profile.version = some "2" ∧
    process_profile_task {} c1profile = ([], .completed) ∧
    ((process_profile_task {} c1profile).1.filter isTerminal).length = 0 :=
  ⟨rfl, rfl, rfl⟩

def c1wprofile : Profile :=
  {platform := "python", version := some "2", chunk_id := some "d", profileData := some {}}

theorem c1_amended_witness :
    (process_profile_task {} c1wprofile).2 = .completed ∧
    (process_profile_task {} c1wprofile).1.filter isTerminal = [] :=
  ⟨rfl, ((c1_amended {} c1wprofile).2.1 rfl).1 rfl⟩

end ProfilesTask
